import Mathlib

/-!
Verification development for the Ad_Post_Agent content-generation pipeline.

The Python sources are shallowly embedded:
* Python/JSON values become the inductive type `Val` (dictionaries are
  association lists that preserve insertion order, as Python dicts do);
* pure dictionary reshaping (`deep_merge`, `build_generation_plan`,
  `normalize_plan`, the prompt builders) becomes total Lean functions,
  with Python exceptions modelled by `Except PyErr`;
* the external generative APIs (Gemini, Replicate, fal.ai) are modelled as
  unspecified total string-valued oracles, which is faithful because every
  API wrapper in the sources catches all exceptions and returns an error
  string instead of raising;
* the LangGraph nodes become functions from the agent state to a partial
  state update plus the list of external API calls they issue.

The repository contains three near-copies of the orchestration module:
`content_orchestration.py` (namespace `CO`), `content_orchestrationfal.py`
(namespace `COFal`), and `test(1).py` (namespace `TestV`).  Definitions that
are byte-identical across the files are shared and documented as such.
-/

set_option maxHeartbeats 1000000

/-- A Python/JSON runtime value as it occurs in this program: `None`, booleans,
integers, strings, lists and (insertion-ordered) string-keyed dictionaries. -/
inductive Val where
  | none : Val
  | bool : Bool → Val
  | int : Int → Val
  | str : String → Val
  | list : List Val → Val
  | dict : List (String × Val) → Val
deriving Repr

/-- A Python dictionary with string keys, as an insertion-ordered association
list.  Real Python dicts never contain a key twice; that invariant is stated
separately (`Val.wf`) where a proof needs it. -/
abbrev Dict := List (String × Val)

mutual

/-- Structural (boolean) equality of embedded Python values. -/
def Val.beq : Val → Val → Bool
  | .none, .none => true
  | .bool a, .bool b => a == b
  | .int a, .int b => a == b
  | .str a, .str b => a == b
  | .list a, .list b => Val.beqList a b
  | .dict a, .dict b => Val.beqDict a b
  | _, _ => false

/-- Pointwise equality of lists of embedded values. -/
def Val.beqList : List Val → List Val → Bool
  | [], [] => true
  | a :: as, b :: bs => Val.beq a b && Val.beqList as bs
  | _, _ => false

/-- Pointwise equality of association lists of embedded values. -/
def Val.beqDict : List (String × Val) → List (String × Val) → Bool
  | [], [] => true
  | (k, v) :: as, (k', v') :: bs => k == k' && Val.beq v v' && Val.beqDict as bs
  | _, _ => false

end

mutual

theorem Val.eq_of_beq : ∀ (a b : Val), Val.beq a b = true → a = b
  | .none, .none, _ => rfl
  | .bool a, .bool b, h => by
      simp only [Val.beq, beq_iff_eq] at h
      exact congrArg Val.bool h
  | .int a, .int b, h => by
      simp only [Val.beq, beq_iff_eq] at h
      exact congrArg Val.int h
  | .str a, .str b, h => by
      simp only [Val.beq, beq_iff_eq] at h
      exact congrArg Val.str h
  | .list a, .list b, h => congrArg Val.list (Val.eqList_of_beq a b h)
  | .dict a, .dict b, h => congrArg Val.dict (Val.eqDict_of_beq a b h)

theorem Val.eqList_of_beq : ∀ (a b : List Val), Val.beqList a b = true → a = b
  | [], [], _ => rfl
  | a :: as, b :: bs, h => by
      simp only [Val.beqList, Bool.and_eq_true] at h
      rw [Val.eq_of_beq a b h.1, Val.eqList_of_beq as bs h.2]

theorem Val.eqDict_of_beq : ∀ (a b : List (String × Val)), Val.beqDict a b = true → a = b
  | [], [], _ => rfl
  | (k, v) :: as, (k', v') :: bs, h => by
      simp only [Val.beqDict, Bool.and_eq_true, beq_iff_eq] at h
      rw [h.1.1, Val.eq_of_beq v v' h.1.2, Val.eqDict_of_beq as bs h.2]

end

mutual

theorem Val.beq_refl : ∀ (a : Val), Val.beq a a = true
  | .none => rfl
  | .bool a => by simp [Val.beq]
  | .int a => by simp [Val.beq]
  | .str a => by simp [Val.beq]
  | .list a => Val.beqList_refl a
  | .dict a => Val.beqDict_refl a

theorem Val.beqList_refl : ∀ (a : List Val), Val.beqList a a = true
  | [] => rfl
  | a :: as => by
      simp only [Val.beqList, Bool.and_eq_true]
      exact ⟨Val.beq_refl a, Val.beqList_refl as⟩

theorem Val.beqDict_refl : ∀ (a : List (String × Val)), Val.beqDict a a = true
  | [] => rfl
  | (k, v) :: as => by
      simp only [Val.beqDict, Bool.and_eq_true]
      exact ⟨⟨by simp, Val.beq_refl v⟩, Val.beqDict_refl as⟩

end

instance : DecidableEq Val := fun a b =>
  decidable_of_iff (Val.beq a b = true)
    ⟨Val.eq_of_beq a b, fun h => h ▸ Val.beq_refl a⟩

/-- Python exceptions that the embedded code can raise. -/
inductive PyErr where
  | valueError : String → PyErr
  | keyError : String → PyErr
  | attributeError : PyErr
  | typeError : PyErr
  | undefinedError : PyErr
deriving Repr, DecidableEq

/-- Lookup of a key in a dictionary (value of the first matching entry), i.e.
`d[k]` when the result is `some`, and a `KeyError` when it is `none`. -/
def dget (d : Dict) (k : String) : Option Val :=
  match d with
  | [] => Option.none
  | (k', v) :: rest => if k' = k then some v else dget rest k

/-- Python `d.get(k, default)`. -/
def dgetD (d : Dict) (k : String) (default : Val) : Val :=
  (dget d k).getD default

/-- Python `k in d` for a dictionary `d`. -/
def dmem (d : Dict) (k : String) : Bool :=
  (dget d k).isSome

/-- Python `d[k] = v`: replace the value of the first entry with key `k`
(keeping its position, as Python dicts keep insertion order), or append a new
entry when the key is absent. -/
def dset (d : Dict) (k : String) (v : Val) : Dict :=
  match d with
  | [] => [(k, v)]
  | (k', v') :: rest => if k' = k then (k', v) :: rest else (k', v') :: dset rest k v

/-- `deep_merge` from `content_orchestration.py` lines 142-149 (the copies in
`content_orchestrationfal.py` lines 136-141 and `test(1).py` lines 152-159 are
byte-identical up to formatting): start from a deep copy of `base` and fold the
entries of `override` into it, merging recursively when both the existing and
the overriding value at a key are dictionaries and overwriting otherwise.
`copy.deepcopy` is the identity in this pure embedding. -/
def deep_merge : Dict → Dict → Dict
  | base, [] => base
  | base, (k, Val.dict vd) :: rest =>
      (match dget base k with
       | some (Val.dict r) => deep_merge (dset base k (Val.dict (deep_merge r vd))) rest
       | _ => deep_merge (dset base k (Val.dict vd)) rest)
  | base, (k, v) :: rest => deep_merge (dset base k v) rest
termination_by _ override => sizeOf override

theorem dget_dset_self (d : Dict) (k : String) (v : Val) :
    dget (dset d k v) k = some v := by
  induction d with
  | nil => simp [dset, dget]
  | cons hd tl ih =>
      obtain ⟨k', v'⟩ := hd
      by_cases h : k' = k <;> simp [dset, dget, h, ih]

theorem dget_dset_ne (d : Dict) (k k' : String) (v : Val) (h : k' ≠ k) :
    dget (dset d k v) k' = dget d k' := by
  have hk : ¬ k = k' := fun hk => h hk.symm
  induction d with
  | nil => simp [dset, dget, hk]
  | cons hd tl ih =>
      obtain ⟨k₀, v₀⟩ := hd
      by_cases h₀ : k₀ = k
      · subst h₀
        simp [dset, dget, hk]
      · simp [dset, dget, h₀, ih]

theorem dmem_dset (d : Dict) (k k' : String) (v : Val) :
    dmem (dset d k v) k' = (dmem d k' || k' = k) := by
  by_cases h : k' = k
  · subst h
    simp [dmem, dget_dset_self]
  · simp [dmem, dget_dset_ne d k k' v h, h]

theorem dset_eq_self (d : Dict) (k : String) (v : Val) (h : dget d k = some v) :
    dset d k v = d := by
  induction d with
  | nil => simp [dget] at h
  | cons hd tl ih =>
      obtain ⟨k', v'⟩ := hd
      by_cases hk : k' = k
      · subst hk
        simp [dget] at h
        simp [dset, h]
      · simp [dget, hk] at h
        simp [dset, hk, ih h]

theorem dset_absent (d : Dict) (k : String) (v : Val) (h : dmem d k = false) :
    dset d k v = d ++ [(k, v)] := by
  induction d with
  | nil => simp [dset]
  | cons hd tl ih =>
      obtain ⟨k', v'⟩ := hd
      by_cases hk : k' = k
      · subst hk
        simp [dmem, dget] at h
      · simp [dmem, dget, hk] at h
        have h' : dmem tl k = false := by simp [dmem, h]
        simp [dset, hk, ih h']

theorem or_key_comm (a b : Bool) (k k' : String) :
    ((a || (k = k')) || b) = (a || ((k' = k : Bool) || b)) := by
  by_cases h : k = k'
  · subst h
    simp
  · have h' : ¬ k' = k := fun hh => h hh.symm
    simp [h, h', Bool.or_assoc]

/-- Key-set specification of `deep_merge`: a key is present in the merge
exactly when it is present in the base or in the override. -/
theorem dmem_deep_merge (base override : Dict) (k : String) :
    dmem (deep_merge base override) k = (dmem base k || dmem override k) := by
  induction override generalizing base with
  | nil => simp [deep_merge, dmem, dget]
  | cons hd tl ih =>
      obtain ⟨k', v⟩ := hd
      have hset : ∀ w : Val, dmem (deep_merge (dset base k' w) tl) k
          = ((dmem base k || (k = k')) || dmem tl k) := by
        intro w
        rw [ih, dmem_dset]
      have hRHS : dmem ((k', v) :: tl) k = ((k' = k : Bool) || dmem tl k) := by
        by_cases h : k' = k <;> simp [dmem, dget, h]
      cases v with
      | dict vd =>
          rcases hb : dget base k' with _ | w
          · simp only [deep_merge, hb, hset, hRHS]
            exact or_key_comm _ _ _ _
          · cases w <;> simp only [deep_merge, hb, hset, hRHS] <;>
              exact or_key_comm _ _ _ _
      | none =>
          simp only [deep_merge, hset, hRHS]
          exact or_key_comm _ _ _ _
      | bool b =>
          simp only [deep_merge, hset, hRHS]
          exact or_key_comm _ _ _ _
      | int i =>
          simp only [deep_merge, hset, hRHS]
          exact or_key_comm _ _ _ _
      | str s =>
          simp only [deep_merge, hset, hRHS]
          exact or_key_comm _ _ _ _
      | list l =>
          simp only [deep_merge, hset, hRHS]
          exact or_key_comm _ _ _ _

/-- Distinctness of the keys of one association-list level. -/
def Val.keysNodup : Dict → Bool
  | [] => true
  | (k, _) :: rest => !(dmem rest k) && Val.keysNodup rest

mutual

/-- Well-formedness of an embedded value: every dictionary occurring in it has
pairwise-distinct keys.  Every value a real Python program can build satisfies
this, because Python dictionaries cannot contain a key twice. -/
def Val.wf : Val → Bool
  | .list l => Val.wfList l
  | .dict d => Val.keysNodup d && Val.wfDict d
  | _ => true

/-- All members of a list are well-formed. -/
def Val.wfList : List Val → Bool
  | [] => true
  | v :: vs => Val.wf v && Val.wfList vs

/-- All values of a dictionary are well-formed. -/
def Val.wfDict : List (String × Val) → Bool
  | [] => true
  | (_, v) :: rest => Val.wf v && Val.wfDict rest

end

theorem dmem_of_mem (d : Dict) (k : String) (v : Val) (h : (k, v) ∈ d) :
    dmem d k = true := by
  induction d with
  | nil => cases h
  | cons hd tl ih =>
      obtain ⟨k', v'⟩ := hd
      rcases List.mem_cons.mp h with h₀ | h₀
      · obtain ⟨rfl, rfl⟩ := Prod.mk.injEq .. ▸ h₀
        simp [dmem, dget]
      · by_cases hk : k' = k <;> simp [dmem, dget, hk] <;>
          simpa [dmem] using ih h₀

theorem dget_of_mem_nodup (d : Dict) (k : String) (v : Val)
    (hnd : Val.keysNodup d = true) (hmem : (k, v) ∈ d) : dget d k = some v := by
  induction d with
  | nil => cases hmem
  | cons hd tl ih =>
      obtain ⟨k', v'⟩ := hd
      simp only [Val.keysNodup, Bool.and_eq_true, Bool.not_eq_true'] at hnd
      rcases List.mem_cons.mp hmem with h | h
      · obtain ⟨rfl, rfl⟩ := Prod.mk.injEq .. ▸ h
        simp [dget]
      · have hk : k' ≠ k := by
          rintro rfl
          rw [dmem_of_mem tl k' v h] at hnd
          cases hnd.1
        simp [dget, hk]
        exact ih hnd.2 h

theorem wfDict_mem (d : Dict) (k : String) (v : Val)
    (hwf : Val.wfDict d = true) (hmem : (k, v) ∈ d) : Val.wf v = true := by
  induction d with
  | nil => cases hmem
  | cons hd tl ih =>
      obtain ⟨k', v'⟩ := hd
      simp only [Val.wfDict, Bool.and_eq_true] at hwf
      rcases List.mem_cons.mp hmem with h | h
      · obtain ⟨rfl, rfl⟩ := Prod.mk.injEq .. ▸ h
        exact hwf.1
      · exact ih hwf.2 h

theorem dmem_append (a b : Dict) (k : String) :
    dmem (a ++ b) k = (dmem a k || dmem b k) := by
  induction a with
  | nil => simp [dmem, dget]
  | cons hd tl ih =>
      obtain ⟨k', v'⟩ := hd
      by_cases hk : k' = k
      · simp [dmem, dget, hk]
      · simpa [dmem, dget, hk] using ih

/-- Merging an override whose keys are all fresh for the base appends the
override to the base in order. -/
theorem deep_merge_fresh (base over : Dict) (hnd : Val.keysNodup over = true)
    (hfresh : ∀ k, dmem over k = true → dmem base k = false) :
    deep_merge base over = base ++ over := by
  induction over generalizing base with
  | nil => simp [deep_merge]
  | cons hd tl ih =>
      obtain ⟨k, v⟩ := hd
      simp only [Val.keysNodup, Bool.and_eq_true, Bool.not_eq_true'] at hnd
      have hkbase : dmem base k = false := by
        apply hfresh
        simp [dmem, dget]
      have hget : dget base k = Option.none := by
        cases hg : dget base k with
        | none => rfl
        | some w => rw [dmem, hg] at hkbase; cases hkbase
      have hset : dset base k v = base ++ [(k, v)] := dset_absent base k v hkbase
      have htail : ∀ w : Val, deep_merge (base ++ [(k, w)]) tl = (base ++ [(k, w)]) ++ tl := by
        intro w
        apply ih _ hnd.2
        intro k' hk'
        have h₂ : k ≠ k' := by
          rintro rfl
          rw [hk'] at hnd
          cases hnd.1
        have h₁ : dmem base k' = false := by
          apply hfresh
          have hstep : dmem ((k, v) :: tl) k' = dmem tl k' := by
            simp [dmem, dget, h₂]
          rw [hstep, hk']
        have h₃ : dmem [(k, w)] k' = false := by
          simp [dmem, dget, h₂]
        rw [dmem_append, h₁, h₃]
        rfl
      cases v with
      | dict vd =>
          simp only [deep_merge, hget]
          rw [hset, htail (Val.dict vd), List.append_assoc]
          rfl
      | none =>
          simp only [deep_merge]
          rw [hset, htail Val.none, List.append_assoc]
          rfl
      | bool b =>
          simp only [deep_merge]
          rw [hset, htail (Val.bool b), List.append_assoc]
          rfl
      | int i =>
          simp only [deep_merge]
          rw [hset, htail (Val.int i), List.append_assoc]
          rfl
      | str s =>
          simp only [deep_merge]
          rw [hset, htail (Val.str s), List.append_assoc]
          rfl
      | list l =>
          simp only [deep_merge]
          rw [hset, htail (Val.list l), List.append_assoc]
          rfl

/-- Merging any dictionary of entries that are already present (with the very
same values, all well-formed) is the identity.  The `n` parameter is a size
bound driving the induction. -/
theorem deep_merge_sub : ∀ (n : Nat) (d over : Dict), sizeOf over ≤ n →
    (∀ p ∈ over, dget d p.1 = some p.2 ∧ Val.wf p.2 = true) → deep_merge d over = d := by
  intro n
  induction n with
  | zero =>
      intro d over hs _
      cases over with
      | nil => simp at hs
      | cons hd tl => simp at hs
  | succ n ih =>
      intro d over hs hp
      cases over with
      | nil => simp [deep_merge]
      | cons hd tl =>
          obtain ⟨k, v⟩ := hd
          have hhead := hp (k, v) (List.mem_cons_self _ _)
          have htl : ∀ p ∈ tl, dget d p.1 = some p.2 ∧ Val.wf p.2 = true :=
            fun p hp' => hp p (List.mem_cons_of_mem _ hp')
          have hstl : sizeOf tl ≤ n := by
            simp only [List.cons.sizeOf_spec] at hs
            omega
          cases v with
          | dict vd =>
              have hsvd : sizeOf vd ≤ n := by
                simp only [List.cons.sizeOf_spec, Prod.mk.sizeOf_spec,
                  Val.dict.sizeOf_spec] at hs
                omega
              have hw := hhead.2
              simp only [Val.wf, Bool.and_eq_true] at hw
              have hvd : deep_merge vd vd = vd := by
                apply ih vd vd hsvd
                intro p hp'
                obtain ⟨pk, pv⟩ := p
                exact ⟨dget_of_mem_nodup vd pk pv hw.1 hp',
                  wfDict_mem vd pk pv hw.2 hp'⟩
              simp only [deep_merge, hhead.1]
              rw [hvd, dset_eq_self d k (Val.dict vd) hhead.1]
              exact ih d tl hstl htl
          | none =>
              simp only [deep_merge]
              rw [dset_eq_self d k Val.none hhead.1]
              exact ih d tl hstl htl
          | bool b =>
              simp only [deep_merge]
              rw [dset_eq_self d k (Val.bool b) hhead.1]
              exact ih d tl hstl htl
          | int i =>
              simp only [deep_merge]
              rw [dset_eq_self d k (Val.int i) hhead.1]
              exact ih d tl hstl htl
          | str s =>
              simp only [deep_merge]
              rw [dset_eq_self d k (Val.str s) hhead.1]
              exact ih d tl hstl htl
          | list l =>
              simp only [deep_merge]
              rw [dset_eq_self d k (Val.list l) hhead.1]
              exact ih d tl hstl htl

/-- C9: `deep_merge` has the empty dictionary as a two-sided identity, is
idempotent on well-formed dictionaries, and the key set of a merge is the
union of the key sets of the two arguments.  The hypothesis `Val.wf` states
that `d` is a real Python dictionary (no duplicate keys at any nesting
level), which every dictionary built by Python satisfies. -/
theorem c9_deep_merge_algebra (d a b : Dict) (hwf : Val.wf (Val.dict d) = true) :
    deep_merge d [] = d ∧ deep_merge [] d = d ∧ deep_merge d d = d ∧
    (∀ k, dmem (deep_merge a b) k = (dmem a k || dmem b k)) := by
  simp only [Val.wf, Bool.and_eq_true] at hwf
  refine ⟨by simp [deep_merge], ?_, ?_, fun k => dmem_deep_merge a b k⟩
  · rw [deep_merge_fresh [] d hwf.1 (fun k _ => by simp [dmem, dget])]
    simp
  · apply deep_merge_sub (sizeOf d) d d le_rfl
    intro p hp
    obtain ⟨pk, pv⟩ := p
    exact ⟨dget_of_mem_nodup d pk pv hwf.1 hp, wfDict_mem d pk pv hwf.2 hp⟩

/-- Witness for `c9_deep_merge_algebra` at a concrete nested dictionary. -/
theorem c9_deep_merge_algebra_witness :
    deep_merge [("a", Val.int 1), ("b", Val.dict [("c", Val.str "x")])]
        [("a", Val.int 1), ("b", Val.dict [("c", Val.str "x")])]
      = [("a", Val.int 1), ("b", Val.dict [("c", Val.str "x")])] :=
  (c9_deep_merge_algebra
      [("a", Val.int 1), ("b", Val.dict [("c", Val.str "x")])]
      [("a", Val.int 1)] [("b", Val.int 2)] (by decide)).2.2.1

theorem mem_of_dget (d : Dict) (k : String) (v : Val) (h : dget d k = some v) :
    (k, v) ∈ d := by
  induction d with
  | nil => simp [dget] at h
  | cons hd tl ih =>
      obtain ⟨k', v'⟩ := hd
      by_cases hk : k' = k
      · subst hk
        simp [dget] at h
        simp [h]
      · simp [dget, hk] at h
        exact List.mem_cons_of_mem _ (ih h)

/-- Python truthiness `bool(v)` of an embedded value: `None`, `False`, `0`,
`""`, `[]` and the empty dict are falsy, everything else is truthy. -/
def valTruthy : Val → Bool
  | Val.none => false
  | Val.bool b => b
  | Val.int i => !(i == 0)
  | Val.str s => !(s == "")
  | Val.list l => !l.isEmpty
  | Val.dict d => !d.isEmpty

/-- Python truthiness of an `Optional[str]`: `None` and `""` are falsy. -/
def optStrTruthy : Option String → Bool
  | Option.none => false
  | some s => !(s == "")

/-- Whether an embedded value is a Python dictionary. -/
def Val.isDict : Val → Bool
  | Val.dict _ => true
  | _ => false

/-- Python `str.upper()`, modelled characterwise (the platform names this
program upper-cases are ASCII, where `Char.toUpper` agrees with Python). -/
def pyUpper (s : String) : String := String.mk (s.data.map Char.toUpper)

/-- `build_generation_plan` from `content_orchestration.py` lines 155-174; the
copies in `content_orchestrationfal.py` lines 143-150 and `test(1).py` lines
165-184 are byte-identical up to formatting.  The rules table that
`load_platform_rules()` reads from `platform_rules_config.json` (a data file,
not part of the repository) is passed as the `rules` parameter; Python
`.upper()` is modelled by `pyUpper` (platform names are ASCII).  A
platform entry that is not itself a dictionary would send the Python
membership test `intent not in rules[platform]` into string/list containment
and then fail on indexing; that never-intended path is modelled coarsely as a
`typeError`, and likewise non-dictionary `DEFAULT` or intent entries fed to
`deep_merge`. -/
def build_generation_plan (rules : Dict) (platform intent : String) : Except PyErr Dict :=
  let P := pyUpper platform
  match dget rules P with
  | Option.none => Except.error (PyErr.valueError ("Platform " ++ P ++ " not found"))
  | some (Val.dict pr) =>
      match dget pr intent with
      | Option.none =>
          Except.error
            (PyErr.valueError ("Intent " ++ intent ++ " not found for platform " ++ P))
      | some iv =>
          match dget pr "DEFAULT" with
          | Option.none => Except.error (PyErr.keyError "DEFAULT")
          | some dv =>
              match dv, iv with
              | Val.dict base, Val.dict ov =>
                  Except.ok (dset (deep_merge base ov) "_meta"
                    (Val.dict [("platform", Val.str P), ("intent", Val.str intent)]))
              | _, _ => Except.error PyErr.typeError
  | some _ => Except.error PyErr.typeError

/-- Whether an embedded computation raised a Python `ValueError`. -/
def isValueError {α : Type} : Except PyErr α → Bool
  | Except.error (PyErr.valueError _) => true
  | _ => false

/-- C1: when the upper-cased platform is a key of the loaded rules, the intent
is a key of that platform's table, and the `DEFAULT` and intent entries are
dictionaries (as in any real rules config), `build_generation_plan` succeeds
and returns exactly the recursive deep merge of the `DEFAULT` entry with the
intent entry, extended with a `_meta` entry holding the upper-cased platform
and the intent. -/
theorem c1_build_generation_plan_merges (rules pr base ov : Dict)
    (platform intent : String)
    (hpl : dget rules (pyUpper platform) = some (Val.dict pr))
    (hint : dget pr intent = some (Val.dict ov))
    (hdef : dget pr "DEFAULT" = some (Val.dict base)) :
    ∃ m, build_generation_plan rules platform intent = Except.ok m ∧
      dget m "_meta" = some (Val.dict
        [("platform", Val.str (pyUpper platform)), ("intent", Val.str intent)]) ∧
      (∀ k, k ≠ "_meta" → dget m k = dget (deep_merge base ov) k) := by
  refine ⟨dset (deep_merge base ov) "_meta"
    (Val.dict [("platform", Val.str (pyUpper platform)), ("intent", Val.str intent)]),
    ?_, dget_dset_self .., fun k hk => dget_dset_ne _ _ k _ hk⟩
  simp [build_generation_plan, hpl, hint, hdef]

/-- Witness for `c1_build_generation_plan_merges` on a concrete rules table:
platform lookup is case-insensitive (`"x"` matches `"X"`). -/
theorem c1_build_generation_plan_merges_witness :
    ∃ m, build_generation_plan
        [("X", Val.dict [("DEFAULT", Val.dict [("tone", Val.str "pro")]),
          ("PROMO", Val.dict [("objective", Val.str "conversion")])])]
        "x" "PROMO" = Except.ok m ∧
      dget m "_meta" = some (Val.dict
        [("platform", Val.str (pyUpper "x")), ("intent", Val.str "PROMO")]) ∧
      (∀ k, k ≠ "_meta" → dget m k = dget (deep_merge
        [("tone", Val.str "pro")] [("objective", Val.str "conversion")]) k) :=
  c1_build_generation_plan_merges
    [("X", Val.dict [("DEFAULT", Val.dict [("tone", Val.str "pro")]),
      ("PROMO", Val.dict [("objective", Val.str "conversion")])])]
    [("DEFAULT", Val.dict [("tone", Val.str "pro")]),
      ("PROMO", Val.dict [("objective", Val.str "conversion")])]
    [("tone", Val.str "pro")] [("objective", Val.str "conversion")]
    "x" "PROMO" (by decide) (by decide) (by decide)

/-- C10: over a rules table whose platform entries are dictionaries,
`build_generation_plan` raises `ValueError` exactly when the upper-cased
platform is not a key of the rules, or the intent — compared verbatim, with
no case conversion — is not a key of the platform's table.  (When it does
raise, no plan is returned: the result is an `Except.error`.) -/
theorem c10_build_generation_plan_valueerror (rules : Dict) (platform intent : String)
    (hdicts : rules.all (fun p => Val.isDict p.2) = true) :
    isValueError (build_generation_plan rules platform intent) = true ↔
      (dget rules (pyUpper platform) = Option.none ∨
        ∃ pr, dget rules (pyUpper platform) = some (Val.dict pr) ∧
          dget pr intent = Option.none) := by
  rcases hp : dget rules (pyUpper platform) with _ | v
  · simp [build_generation_plan, hp, isValueError]
  · have hmem := mem_of_dget rules _ v hp
    have hd : Val.isDict v = true := by
      rw [List.all_eq_true] at hdicts
      exact hdicts _ hmem
    cases v with
    | dict pr =>
        rcases hi : dget pr intent with _ | iv
        · constructor
          · intro _
            exact Or.inr ⟨pr, rfl, hi⟩
          · intro _
            simp [build_generation_plan, hp, hi, isValueError]
        · constructor
          · intro habs
            exfalso
            rcases hdv : dget pr "DEFAULT" with _ | dv
            · simp [build_generation_plan, hp, hi, hdv, isValueError] at habs
            · cases dv <;> cases iv <;>
                simp [build_generation_plan, hp, hi, hdv, isValueError] at habs
          · rintro (h | ⟨pr', hpr', hint'⟩)
            · cases h
            · obtain rfl : pr = pr' := by
                injection hpr' with h'
                injection h'
              rw [hi] at hint'
              cases hint'
    | none => cases hd
    | bool b => cases hd
    | int i => cases hd
    | str s => cases hd
    | list l => cases hd

/-- Witness for `c10_build_generation_plan_valueerror`: an unknown intent on a
known platform raises `ValueError`. -/
theorem c10_build_generation_plan_valueerror_witness :
    isValueError (build_generation_plan
        [("X", Val.dict [("DEFAULT", Val.dict [])])] "x" "PROMO") = true :=
  (c10_build_generation_plan_valueerror
      [("X", Val.dict [("DEFAULT", Val.dict [])])] "x" "PROMO" (by decide)).mpr
    (Or.inr ⟨[("DEFAULT", Val.dict [])], by decide, by decide⟩)

/-- An optional string as it is stored into a result dictionary (`None` or the
string itself). -/
def optStrVal : Option String → Val
  | Option.none => Val.none
  | some s => Val.str s

namespace CO

/-- Lines 184-193 of `content_orchestration.py` (`normalize_plan`): the list of
allowed media types derived from `media_constraints["type"]`.  The Python
membership test `raw_type in ["image", "video", "photo_carousel", "text_only"]`
only succeeds when `raw_type` is one of those strings. -/
def allowedTypes (raw_type : Val) : List String :=
  if raw_type = Val.str "optional" then ["image", "video"]
  else if raw_type = Val.str "image_or_short_video" then ["image", "video"]
  else if raw_type = Val.str "image" ∨ raw_type = Val.str "video" ∨
      raw_type = Val.str "photo_carousel" ∨ raw_type = Val.str "text_only" then
    (match raw_type with
     | Val.str s => [s]
     | _ => [])
  else []

/-- Lines 195-201 of `content_orchestration.py` (`normalize_plan`): the user's
choice when it is allowed; otherwise, when something is allowed, the raw type
itself when allowed and the first allowed type when not. -/
def selectType (raw_type : Val) (allowed_types : List String)
    (user_media_choice : Option String) : Option String :=
  let selected :=
    match user_media_choice with
    | some u => if u ∈ allowed_types then some u else Option.none
    | Option.none => Option.none
  if optStrTruthy selected = false ∧ allowed_types ≠ [] then
    (match raw_type with
     | Val.str s => if s ∈ allowed_types then some s else allowed_types.head?
     | _ => allowed_types.head?)
  else selected

/-- `normalize_plan` from `content_orchestration.py` lines 180-230.  Calling
`.get` on a non-dictionary `media_constraints` value raises `AttributeError`;
every other input is reshaped into the fixed output dictionary. -/
def normalize_plan (raw : Dict) (user_media_choice : Option String) :
    Except PyErr Dict :=
  match dgetD raw "media_constraints" (Val.dict []) with
  | Val.dict media =>
      let text := dgetD raw "text_constraints" (Val.dict [])
      let raw_type := dgetD media "type" Val.none
      let allowed_types := allowedTypes raw_type
      let selected_type := selectType raw_type allowed_types user_media_choice
      Except.ok
        [("platform", dgetD raw "platform" Val.none),
         ("content_type", dgetD raw "content_type" Val.none),
         ("objective", dgetD raw "objective" Val.none),
         ("tone", dgetD raw "tone" Val.none),
         ("text_constraints", text),
         ("media_constraints", Val.dict
           [("allowed_types", Val.list (allowed_types.map Val.str)),
            ("selected_type", optStrVal selected_type),
            ("raw", Val.dict media),
            ("image", dgetD media "image" (Val.dict [])),
            ("video", dgetD media "video" (Val.dict [])),
            ("image_count", dgetD media "image_count" Val.none),
            ("aspect_ratio", dgetD media "aspect_ratio" Val.none),
            ("safe_zone_required", dgetD media "safe_zone_required" (Val.bool false)),
            ("ugc_style", dgetD media "ugc_style" (Val.bool false)),
            ("supports_audio", dgetD media "supports_audio" (Val.bool false)),
            ("recommended_use_cases", dgetD media "recommended_use_cases" (Val.list []))]),
         ("cta_style", dgetD raw "cta_style" Val.none),
         ("optimization_goal", dgetD raw "optimization_goal" Val.none),
         ("variation_count", dgetD raw "variation_count" Val.none),
         ("_meta", dgetD raw "_meta" Val.none)]
  | _ => Except.error PyErr.attributeError

end CO

namespace COFal

/-- Lines 156-158 of `content_orchestrationfal.py` (`normalize_plan`): the
allowed-types chain.  Unlike `content_orchestration.py`, the second membership
list is `["video", "photo_carousel", "text_only"]` — it does not contain
`"image"`. -/
def allowedTypes (raw_type : Val) : List String :=
  if raw_type = Val.str "optional" ∨ raw_type = Val.str "image_or_short_video" then
    ["image", "video"]
  else if raw_type = Val.str "video" ∨ raw_type = Val.str "photo_carousel" ∨
      raw_type = Val.str "text_only" then
    (match raw_type with
     | Val.str s => [s]
     | _ => [])
  else []

/-- Line 159 of `content_orchestrationfal.py` (`normalize_plan`): the user's
choice when allowed, otherwise the first allowed type, otherwise `None`. -/
def selectType (allowed_types : List String)
    (user_media_choice : Option String) : Option String :=
  match user_media_choice with
  | some u =>
      if u ∈ allowed_types then some u
      else if allowed_types ≠ [] then allowed_types.head? else Option.none
  | Option.none => if allowed_types ≠ [] then allowed_types.head? else Option.none

/-- `normalize_plan` from `content_orchestrationfal.py` lines 152-172; its
output dictionary is textually identical to the one in
`content_orchestration.py`, only the allowed/selected computations differ. -/
def normalize_plan (raw : Dict) (user_media_choice : Option String) :
    Except PyErr Dict :=
  match dgetD raw "media_constraints" (Val.dict []) with
  | Val.dict media =>
      let text := dgetD raw "text_constraints" (Val.dict [])
      let raw_type := dgetD media "type" Val.none
      let allowed_types := allowedTypes raw_type
      let selected_type := selectType allowed_types user_media_choice
      Except.ok
        [("platform", dgetD raw "platform" Val.none),
         ("content_type", dgetD raw "content_type" Val.none),
         ("objective", dgetD raw "objective" Val.none),
         ("tone", dgetD raw "tone" Val.none),
         ("text_constraints", text),
         ("media_constraints", Val.dict
           [("allowed_types", Val.list (allowed_types.map Val.str)),
            ("selected_type", optStrVal selected_type),
            ("raw", Val.dict media),
            ("image", dgetD media "image" (Val.dict [])),
            ("video", dgetD media "video" (Val.dict [])),
            ("image_count", dgetD media "image_count" Val.none),
            ("aspect_ratio", dgetD media "aspect_ratio" Val.none),
            ("safe_zone_required", dgetD media "safe_zone_required" (Val.bool false)),
            ("ugc_style", dgetD media "ugc_style" (Val.bool false)),
            ("supports_audio", dgetD media "supports_audio" (Val.bool false)),
            ("recommended_use_cases", dgetD media "recommended_use_cases" (Val.list []))]),
         ("cta_style", dgetD raw "cta_style" Val.none),
         ("optimization_goal", dgetD raw "optimization_goal" Val.none),
         ("variation_count", dgetD raw "variation_count" Val.none),
         ("_meta", dgetD raw "_meta" Val.none)]
  | _ => Except.error PyErr.attributeError

end COFal

deriving instance DecidableEq for Except

/-- The raw media type a plan dictionary carries, i.e. the value the two
`normalize_plan` variants branch on: `media_constraints["type"]` when the
`media_constraints` entry is (or defaults to) a dictionary, `None` otherwise
(in that case both variants raise `AttributeError` anyway). -/
def rawMediaType (raw : Dict) : Val :=
  match dgetD raw "media_constraints" (Val.dict []) with
  | Val.dict media => dgetD media "type" Val.none
  | _ => Val.none

/-- The `media_constraints["allowed_types"]` entry of a normalization result. -/
def mediaAllowedOf : Except PyErr Dict → Option Val
  | Except.ok p =>
      (match dget p "media_constraints" with
       | some (Val.dict mc) => dget mc "allowed_types"
       | _ => Option.none)
  | Except.error _ => Option.none

/-- The `media_constraints["selected_type"]` entry of a normalization result. -/
def mediaSelectedOf : Except PyErr Dict → Option Val
  | Except.ok p =>
      (match dget p "media_constraints" with
       | some (Val.dict mc) => dget mc "selected_type"
       | _ => Option.none)
  | Except.error _ => Option.none

theorem head?_spec {α : Type} (A : List α) (h : A ≠ []) :
    ∃ a, A.head? = some a ∧ a ∈ A := by
  cases A with
  | nil => cases h rfl
  | cons a as => exact ⟨a, rfl, List.mem_cons_self a as⟩

theorem co_allowedTypes_members_ne_empty (rt : Val) :
    ∀ x ∈ CO.allowedTypes rt, x ≠ "" := by
  intro x hx
  unfold CO.allowedTypes at hx
  split_ifs at hx with h1 h2 h3
  · simp at hx
    rcases hx with rfl | rfl <;> decide
  · simp at hx
    rcases hx with rfl | rfl <;> decide
  · rcases h3 with rfl | rfl | rfl | rfl <;> simp at hx <;> subst hx <;> decide
  · simp at hx

theorem cofal_allowedTypes_members_ne_empty (rt : Val) :
    ∀ x ∈ COFal.allowedTypes rt, x ≠ "" := by
  intro x hx
  unfold COFal.allowedTypes at hx
  split_ifs at hx with h1 h2
  · simp at hx
    rcases hx with rfl | rfl <;> decide
  · rcases h2 with rfl | rfl | rfl <;> simp at hx <;> subst hx <;> decide
  · simp at hx

theorem co_selectType_spec (rt : Val) (A : List String) (user : Option String)
    (hA : ∀ x ∈ A, x ≠ "") :
    (A = [] → CO.selectType rt A user = Option.none) ∧
    (A ≠ [] → ∃ s, CO.selectType rt A user = some s ∧ s ∈ A) ∧
    (∀ u, user = some u → u ∈ A → CO.selectType rt A user = some u) := by
  refine ⟨?_, ?_, ?_⟩
  · rintro rfl
    cases user with
    | none => simp [CO.selectType, optStrTruthy]
    | some u => simp [CO.selectType, optStrTruthy]
  · intro hne
    obtain ⟨a, ha, hmem⟩ := head?_spec A hne
    cases user with
    | none =>
        cases rt with
        | str s =>
            by_cases hs : s ∈ A
            · exact ⟨s, by simp [CO.selectType, optStrTruthy, hne, hs], hs⟩
            · exact ⟨a, by simp [CO.selectType, optStrTruthy, hne, hs, ha], hmem⟩
        | none => exact ⟨a, by simp [CO.selectType, optStrTruthy, hne, ha], hmem⟩
        | bool b => exact ⟨a, by simp [CO.selectType, optStrTruthy, hne, ha], hmem⟩
        | int i => exact ⟨a, by simp [CO.selectType, optStrTruthy, hne, ha], hmem⟩
        | list l => exact ⟨a, by simp [CO.selectType, optStrTruthy, hne, ha], hmem⟩
        | dict d => exact ⟨a, by simp [CO.selectType, optStrTruthy, hne, ha], hmem⟩
    | some u =>
        by_cases hu : u ∈ A
        · refine ⟨u, ?_, hu⟩
          have hu' : u ≠ "" := hA u hu
          simp [CO.selectType, optStrTruthy, hu, hu']
        · cases rt with
          | str s =>
              by_cases hs : s ∈ A
              · exact ⟨s, by simp [CO.selectType, optStrTruthy, hne, hu, hs], hs⟩
              · exact ⟨a, by simp [CO.selectType, optStrTruthy, hne, hu, hs, ha], hmem⟩
          | none => exact ⟨a, by simp [CO.selectType, optStrTruthy, hne, hu, ha], hmem⟩
          | bool b => exact ⟨a, by simp [CO.selectType, optStrTruthy, hne, hu, ha], hmem⟩
          | int i => exact ⟨a, by simp [CO.selectType, optStrTruthy, hne, hu, ha], hmem⟩
          | list l => exact ⟨a, by simp [CO.selectType, optStrTruthy, hne, hu, ha], hmem⟩
          | dict d => exact ⟨a, by simp [CO.selectType, optStrTruthy, hne, hu, ha], hmem⟩
  · rintro u rfl hu
    have hu' : u ≠ "" := hA u hu
    simp [CO.selectType, optStrTruthy, hu, hu']

theorem cofal_selectType_spec (A : List String) (user : Option String) :
    (A = [] → COFal.selectType A user = Option.none) ∧
    (A ≠ [] → ∃ s, COFal.selectType A user = some s ∧ s ∈ A) ∧
    (∀ u, user = some u → u ∈ A → COFal.selectType A user = some u) := by
  refine ⟨?_, ?_, ?_⟩
  · rintro rfl
    cases user with
    | none => simp [COFal.selectType]
    | some u => simp [COFal.selectType]
  · intro hne
    obtain ⟨a, ha, hmem⟩ := head?_spec A hne
    cases user with
    | none =>
        exact ⟨a, by simp [COFal.selectType, hne, ha], hmem⟩
    | some u =>
        by_cases hu : u ∈ A
        · exact ⟨u, by simp [COFal.selectType, hu], hu⟩
        · exact ⟨a, by simp [COFal.selectType, hu, hne, ha], hmem⟩
  · rintro u rfl hu
    simp [COFal.selectType, hu]

/-- The invariant claim C3 states about a normalized plan: the selected media
type is `None` exactly when nothing is allowed, it is always one of the
allowed types otherwise, and an allowed user choice always wins. -/
def SelInv (user : Option String) (p : Dict) : Prop :=
  ∃ mc ats st, dget p "media_constraints" = some (Val.dict mc) ∧
    dget mc "allowed_types" = some (Val.list ats) ∧
    dget mc "selected_type" = some st ∧
    (ats = [] → st = Val.none) ∧
    (ats ≠ [] → ∃ s, st = Val.str s ∧ Val.str s ∈ ats) ∧
    (∀ u, user = some u → Val.str u ∈ ats → st = Val.str u)

theorem selinv_of_parts (user : Option String) (A : List String) (st : Option String)
    (h1 : A = [] → st = Option.none)
    (h2 : A ≠ [] → ∃ s, st = some s ∧ s ∈ A)
    (h3 : ∀ u, user = some u → u ∈ A → st = some u)
    (p mc : Dict)
    (hpm : dget p "media_constraints" = some (Val.dict mc))
    (hats : dget mc "allowed_types" = some (Val.list (A.map Val.str)))
    (hst : dget mc "selected_type" = some (optStrVal st)) :
    SelInv user p := by
  refine ⟨mc, A.map Val.str, optStrVal st, hpm, hats, hst, ?_, ?_, ?_⟩
  · intro h
    rw [List.map_eq_nil_iff] at h
    rw [h1 h]
    rfl
  · intro h
    have hA : A ≠ [] := by
      rintro rfl
      exact h rfl
    obtain ⟨s, hs, hmem⟩ := h2 hA
    refine ⟨s, ?_, List.mem_map_of_mem _ hmem⟩
    rw [hs]
    rfl
  · intro u hu hmem
    rw [List.mem_map] at hmem
    obtain ⟨x, hx, hxx⟩ := hmem
    have hxu : x = u := by injection hxx
    rw [h3 u hu (hxu ▸ hx)]
    rfl

/-- C3: in both orchestration variants, a successfully normalized plan
satisfies the implicit selection invariant: `selected_type` is `None` exactly
when `allowed_types` is empty, otherwise `selected_type` is a member of
`allowed_types`; and whenever the user's media choice is one of the allowed
types, `selected_type` equals the user's choice. -/
theorem c3_normalize_plan_selected_invariant (raw : Dict) (user : Option String) :
    (∀ p, CO.normalize_plan raw user = Except.ok p → SelInv user p) ∧
    (∀ p, COFal.normalize_plan raw user = Except.ok p → SelInv user p) := by
  constructor
  · intro p hp
    unfold CO.normalize_plan at hp
    split at hp
    all_goals try exact Except.noConfusion hp
    rename_i media heq
    simp only [Except.ok.injEq] at hp
    subst hp
    have hspec := co_selectType_spec (dgetD media "type" Val.none)
      (CO.allowedTypes (dgetD media "type" Val.none)) user
      (co_allowedTypes_members_ne_empty (dgetD media "type" Val.none))
    apply selinv_of_parts user _ _ hspec.1 hspec.2.1 hspec.2.2 <;> rfl
  · intro p hp
    unfold COFal.normalize_plan at hp
    split at hp
    all_goals try exact Except.noConfusion hp
    rename_i media heq
    simp only [Except.ok.injEq] at hp
    subst hp
    have hspec := cofal_selectType_spec
      (COFal.allowedTypes (dgetD media "type" Val.none)) user
    apply selinv_of_parts user _ _ hspec.1 hspec.2.1 hspec.2.2 <;> rfl

/-- Witness for `c3_normalize_plan_selected_invariant`: platform `X`-style
rules (`type = "optional"`) with the user choosing `"video"`. -/
theorem c3_normalize_plan_selected_invariant_witness :
    SelInv (some "video")
      [("platform", Val.none), ("content_type", Val.none), ("objective", Val.none),
       ("tone", Val.none), ("text_constraints", Val.dict []),
       ("media_constraints", Val.dict
         [("allowed_types", Val.list [Val.str "image", Val.str "video"]),
          ("selected_type", Val.str "video"),
          ("raw", Val.dict [("type", Val.str "optional")]),
          ("image", Val.dict []), ("video", Val.dict []),
          ("image_count", Val.none), ("aspect_ratio", Val.none),
          ("safe_zone_required", Val.bool false), ("ugc_style", Val.bool false),
          ("supports_audio", Val.bool false), ("recommended_use_cases", Val.list [])]),
       ("cta_style", Val.none), ("optimization_goal", Val.none),
       ("variation_count", Val.none), ("_meta", Val.none)] :=
  (c3_normalize_plan_selected_invariant
      [("media_constraints", Val.dict [("type", Val.str "optional")])]
      (some "video")).1 _ (by decide)

/-- Away from the raw type `"image"`, the two allowed-types computations agree
(at `"image"` they do not: `content_orchestration.py` yields `["image"]` and
`content_orchestrationfal.py` yields `[]`). -/
theorem allowedTypes_agree (rt : Val) (h : rt ≠ Val.str "image") :
    CO.allowedTypes rt = COFal.allowedTypes rt := by
  cases rt with
  | str s =>
      have hs : ¬ s = "image" := by
        rintro rfl
        exact h rfl
      by_cases h1 : s = "optional"
      · simp [CO.allowedTypes, COFal.allowedTypes, h1]
      · by_cases h2 : s = "image_or_short_video"
        · simp [CO.allowedTypes, COFal.allowedTypes, h1, h2]
        · by_cases h3 : s = "video"
          · simp [CO.allowedTypes, COFal.allowedTypes, h1, h2, h3]
          · by_cases h4 : s = "photo_carousel"
            · simp [CO.allowedTypes, COFal.allowedTypes, h1, h2, h3, h4]
            · by_cases h5 : s = "text_only"
              · simp [CO.allowedTypes, COFal.allowedTypes, h1, h2, h3, h4, h5]
              · simp [CO.allowedTypes, COFal.allowedTypes, h1, h2, h3, h4, h5, hs]
  | none => simp [CO.allowedTypes, COFal.allowedTypes]
  | bool b => simp [CO.allowedTypes, COFal.allowedTypes]
  | int i => simp [CO.allowedTypes, COFal.allowedTypes]
  | list l => simp [CO.allowedTypes, COFal.allowedTypes]
  | dict d => simp [CO.allowedTypes, COFal.allowedTypes]

/-- Given the same allowed list whose members are nonempty strings and in
which the raw type, when allowed at all, sits at the head, the two selection
computations agree. -/
theorem selectType_agree_aux (rt : Val) (A : List String) (user : Option String)
    (hA : ∀ x ∈ A, x ≠ "")
    (hrt : ∀ s, rt = Val.str s → s ∈ A → A.head? = some s) :
    CO.selectType rt A user = COFal.selectType A user := by
  by_cases hne : A = []
  · subst hne
    cases user with
    | none => simp [CO.selectType, COFal.selectType, optStrTruthy]
    | some u => simp [CO.selectType, COFal.selectType, optStrTruthy]
  · cases user with
    | none =>
        cases rt with
        | str s =>
            by_cases hs : s ∈ A
            · have hhead := hrt s rfl hs
              simp [CO.selectType, COFal.selectType, optStrTruthy, hne, hs, hhead]
            · simp [CO.selectType, COFal.selectType, optStrTruthy, hne, hs]
        | none => simp [CO.selectType, COFal.selectType, optStrTruthy, hne]
        | bool b => simp [CO.selectType, COFal.selectType, optStrTruthy, hne]
        | int i => simp [CO.selectType, COFal.selectType, optStrTruthy, hne]
        | list l => simp [CO.selectType, COFal.selectType, optStrTruthy, hne]
        | dict d => simp [CO.selectType, COFal.selectType, optStrTruthy, hne]
    | some u =>
        by_cases hu : u ∈ A
        · have hu' : u ≠ "" := hA u hu
          simp [CO.selectType, COFal.selectType, optStrTruthy, hu, hu']
        · cases rt with
          | str s =>
              by_cases hs : s ∈ A
              · have hhead := hrt s rfl hs
                simp [CO.selectType, COFal.selectType, optStrTruthy, hne, hu, hs, hhead]
              · simp [CO.selectType, COFal.selectType, optStrTruthy, hne, hu, hs]
          | none => simp [CO.selectType, COFal.selectType, optStrTruthy, hne, hu]
          | bool b => simp [CO.selectType, COFal.selectType, optStrTruthy, hne, hu]
          | int i => simp [CO.selectType, COFal.selectType, optStrTruthy, hne, hu]
          | list l => simp [CO.selectType, COFal.selectType, optStrTruthy, hne, hu]
          | dict d => simp [CO.selectType, COFal.selectType, optStrTruthy, hne, hu]

/-- The two selection computations agree whenever they are fed the allowed
list computed by `content_orchestrationfal.py`. -/
theorem selectType_agree (rt : Val) (user : Option String) :
    CO.selectType rt (COFal.allowedTypes rt) user
      = COFal.selectType (COFal.allowedTypes rt) user := by
  apply selectType_agree_aux rt _ user (cofal_allowedTypes_members_ne_empty rt)
  intro s hrt hs
  subst hrt
  unfold COFal.allowedTypes at hs ⊢
  split_ifs at hs ⊢ with h1 h2
  · rcases h1 with h1 | h1 <;> injection h1 with h1 <;> subst h1 <;> simp at hs
  · simp
  · simp at hs

/-- C2 (amended): the two `normalize_plan` functions agree on every raw plan
whose media type is not exactly the string `"image"` (and in particular they
raise the same `AttributeError` on non-dictionary media constraints); at media
type `"image"` they differ, see `c2_normalize_plan_counterexample`. -/
theorem c2_normalize_plan_agree_off_image (raw : Dict) (user : Option String)
    (h : rawMediaType raw ≠ Val.str "image") :
    CO.normalize_plan raw user = COFal.normalize_plan raw user := by
  unfold rawMediaType at h
  unfold CO.normalize_plan COFal.normalize_plan
  rcases hm : dgetD raw "media_constraints" (Val.dict []) with _ | b | i | s | l | media
  · rfl
  · rfl
  · rfl
  · rfl
  · rfl
  · have hrt : dgetD media "type" Val.none ≠ Val.str "image" := by
      rw [hm] at h
      simpa using h
    simp only [allowedTypes_agree (dgetD media "type" Val.none) hrt, selectType_agree]

/-- C2 counterexample: on the raw plan `{"media_constraints": {"type":
"image"}}` with no user choice, the two `normalize_plan` functions return
different dictionaries — they disagree at `media_constraints["allowed_types"]`
(`["image"]` against `[]`) and at `media_constraints["selected_type"]`
(`"image"` against `None`) — refuting the claimed extensional equality. -/
theorem c2_normalize_plan_counterexample :
    mediaAllowedOf (CO.normalize_plan
        [("media_constraints", Val.dict [("type", Val.str "image")])] Option.none)
      = some (Val.list [Val.str "image"]) ∧
    mediaAllowedOf (COFal.normalize_plan
        [("media_constraints", Val.dict [("type", Val.str "image")])] Option.none)
      = some (Val.list []) ∧
    mediaSelectedOf (CO.normalize_plan
        [("media_constraints", Val.dict [("type", Val.str "image")])] Option.none)
      = some (Val.str "image") ∧
    mediaSelectedOf (COFal.normalize_plan
        [("media_constraints", Val.dict [("type", Val.str "image")])] Option.none)
      = some Val.none ∧
    CO.normalize_plan
        [("media_constraints", Val.dict [("type", Val.str "image")])] Option.none
      ≠ COFal.normalize_plan
        [("media_constraints", Val.dict [("type", Val.str "image")])] Option.none := by
  refine ⟨by decide, by decide, by decide, by decide, by decide⟩

/-- Witness for `c2_normalize_plan_agree_off_image`: at media type
`"optional"` the two variants return the same dictionary. -/
theorem c2_normalize_plan_agree_off_image_witness :
    CO.normalize_plan
        [("media_constraints", Val.dict [("type", Val.str "optional")])] (some "video")
      = COFal.normalize_plan
        [("media_constraints", Val.dict [("type", Val.str "optional")])] (some "video") :=
  c2_normalize_plan_agree_off_image
    [("media_constraints", Val.dict [("type", Val.str "optional")])] (some "video")
    (by decide)

mutual

/-- Python `repr(v)` of an embedded value, as it appears nested inside the
`str()` of a list or dictionary.  String escaping inside `repr` is not
modelled (the configuration strings this program renders contain no quotes or
backslashes). -/
def pyRepr : Val → String
  | Val.none => "None"
  | Val.bool true => "True"
  | Val.bool false => "False"
  | Val.int i => toString i
  | Val.str s => "\x27" ++ s ++ "\x27"
  | Val.list l => "[" ++ pyReprList l ++ "]"
  | Val.dict d => "\x7b" ++ pyReprDict d ++ "\x7d"

/-- Comma-separated `repr`s of the members of a list. -/
def pyReprList : List Val → String
  | [] => ""
  | [v] => pyRepr v
  | v :: rest => pyRepr v ++ ", " ++ pyReprList rest

/-- Comma-separated `repr`s of the entries of a dictionary. -/
def pyReprDict : List (String × Val) → String
  | [] => ""
  | [(k, v)] => "\x27" ++ k ++ "\x27: " ++ pyRepr v
  | (k, v) :: rest => "\x27" ++ k ++ "\x27: " ++ pyRepr v ++ ", " ++ pyReprDict rest

end

/-- Python `str(v)`: strings print verbatim, everything else as its `repr`. -/
def pyStr : Val → String
  | Val.str s => s
  | v => pyRepr v

/-- Python `d[k]` for a dictionary: the value, or a `KeyError`. -/
def pyIndex (d : Dict) (k : String) : Except PyErr Val :=
  match dget d k with
  | some v => Except.ok v
  | Option.none => Except.error (PyErr.keyError k)

/-- Jinja2 attribute access on a defined value: a dictionary lookup when the
value is a dictionary (a missing key gives `Undefined`, modelled as `none`),
and `Undefined` for any attribute of a non-dictionary value (the attribute
names these templates use do not exist on Python strings or numbers). -/
def jAttr : Val → String → Option Val
  | Val.dict d, k => dget d k
  | _, _ => Option.none

/-- Two-step Jinja2 attribute access `base.k1.k2`: Jinja2's default
`Undefined` raises `UndefinedError` as soon as an attribute of it is
accessed, so a missing first level is an error while a missing second level
just renders as `Undefined`. -/
def jAttr2 (v : Val) (k1 k2 : String) : Except PyErr (Option Val) :=
  match jAttr v k1 with
  | some w => Except.ok (jAttr w k2)
  | Option.none => Except.error PyErr.undefinedError

/-- Jinja2 truthiness of a possibly-`Undefined` value. -/
def jTruthy : Option Val → Bool
  | Option.none => false
  | some v => valTruthy v

/-- Jinja2 `is not none` on a possibly-`Undefined` value: `Undefined` is not
the Python `None` object, so the test passes on it. -/
def jIsNotNone : Option Val → Bool
  | some Val.none => false
  | _ => true

/-- Jinja2 `is defined`. -/
def jDefined : Option Val → Bool
  | Option.none => false
  | some _ => true

/-- Jinja2 `{{ x }}` interpolation of a possibly-`Undefined` value (the
default `Undefined` prints as the empty string). -/
def jStr : Option Val → String
  | Option.none => ""
  | some v => pyStr v

/-- The fixed part of `TEXT_PROMPT_TEMPLATE` (identical in all three source
files) up to and including the `NON-NEGOTIABLE RULES:` heading; each
`{%- ... %}` tag strips the whitespace before it, so the heading is directly
followed by the rule lines. -/
def textPromptPrefix (platform content_type objective : Val) : String :=
  "\nSYSTEM:\nYou are a senior social media copywriter who specializes in "
    ++ pyStr platform ++ " " ++ pyStr content_type
    ++ " content.\n\nCONTEXT:\nYou are writing a " ++ pyStr content_type
    ++ " post.\nYour success is measured by " ++ pyStr objective
    ++ ".\nThe audience scrolls fast, so clarity and impact matter.\n\nYOUR MISSION:\nWrite a single post that communicates the idea clearly, hooks the reader immediately,\nand feels native to "
    ++ pyStr platform ++ ".\n\nNON-NEGOTIABLE RULES:"

/-- The `NON-NEGOTIABLE RULES` block of `TEXT_PROMPT_TEMPLATE`: one line per
constraint that is switched on, with Jinja2 semantics for truthiness,
`is defined` and `is not none`.  (Note Jinja2 subtlety, modelled faithfully: a
missing `allow_hashtags` key is `Undefined`, which is not `None`, so the
`is not none` guard passes and the falsy `Undefined` selects the
"NOT allowed" line.) -/
def textPromptRules (tone tc : Val) : String :=
  (if jTruthy (jAttr tc "min_chars") && jTruthy (jAttr tc "max_chars") then
    "\n- The final text must be between " ++ jStr (jAttr tc "min_chars") ++ " and "
      ++ jStr (jAttr tc "max_chars") ++ " characters."
  else if jTruthy (jAttr tc "max_chars") then
    "\n- The final text must not exceed " ++ jStr (jAttr tc "max_chars") ++ " characters."
  else "")
  ++ (if jDefined (jAttr tc "max_words") && jIsNotNone (jAttr tc "max_words") then
    "\n- The final text must not exceed " ++ jStr (jAttr tc "max_words") ++ " words."
  else "")
  ++ (if jDefined (jAttr tc "max_emojis") && jIsNotNone (jAttr tc "max_emojis") then
    "\n- You may use at most " ++ jStr (jAttr tc "max_emojis") ++ " emoji."
  else "")
  ++ ("\n- The tone must be " ++ pyStr tone ++ ".")
  ++ (if jTruthy (jAttr tc "hook_first_50_chars") then
    "\n- The first 50 characters must contain a strong hook."
  else "")
  ++ (if jIsNotNone (jAttr tc "allow_hashtags") then
    (if !(jTruthy (jAttr tc "allow_hashtags")) then "\n- Hashtags are NOT allowed."
     else "\n- Hashtags are allowed if they fit naturally.")
  else "")
  ++ (if jIsNotNone (jAttr tc "allow_mentions") then
    (if !(jTruthy (jAttr tc "allow_mentions")) then "\n- Mentions are NOT allowed."
     else "\n- Mentions are allowed if relevant.")
  else "")

/-- The fixed tail of `TEXT_PROMPT_TEMPLATE`. -/
def textPromptSuffix : String :=
  "\n\nHOW TO WORK:\n- Use ONLY the information provided in the USER PROVIDED DATA section.\n- Do NOT invent facts, features, or claims.\n- Write naturally, as a human copywriter would.\n\nFINAL OUTPUT:\nReturn only the final post text.\nNo explanations. No formatting.\n"

/-- `build_text_prompt` (byte-identical in all three source files): render
`TEXT_PROMPT_TEMPLATE` with the plan's fields, which are read with
`plan["..."]` in keyword-argument order, so a missing key raises `KeyError`. -/
def build_text_prompt (plan : Dict) : Except PyErr String := do
  let platform ← pyIndex plan "platform"
  let objective ← pyIndex plan "objective"
  let content_type ← pyIndex plan "content_type"
  let tone ← pyIndex plan "tone"
  let tc ← pyIndex plan "text_constraints"
  Except.ok (textPromptPrefix platform content_type objective
    ++ textPromptRules tone tc ++ textPromptSuffix)

/-- The image block of `MEDIA_PROMPT_TEMPLATE` (rendered only when
`media_type == "image"`).  The first two lines access
`media_constraints.image.…` unconditionally, so a missing `image` key (an
`Undefined` base) raises `UndefinedError`. -/
def mediaImageSection (mc : Val) : Except PyErr String := do
  let aspect ← jAttr2 mc "image" "aspect_ratio"
  let minres ← jAttr2 mc "image" "min_resolution"
  let maxsize ← jAttr2 mc "image" "max_file_size_mb"
  let overlay ← jAttr2 mc "image" "text_overlay_allowed"
  let branding ← jAttr2 mc "image" "branding_required"
  let bpos ← jAttr2 mc "image" "branding_position"
  Except.ok
    ("\n- Aspect ratio: " ++ jStr aspect
      ++ "\n- Minimum resolution: " ++ jStr minres
      ++ (if jTruthy maxsize then "\n- Maximum file size: " ++ jStr maxsize ++ " MB" else "")
      ++ (if jTruthy overlay then "\n- Text overlays are allowed."
          else "\n- Text overlays are NOT allowed.")
      ++ (if jTruthy branding then "\n- Branding is required."
          else "\n- Branding is not required.")
      ++ (if jTruthy bpos then "\n- Branding position: " ++ jStr bpos else ""))

/-- The video block of `MEDIA_PROMPT_TEMPLATE` (rendered only when
`media_type == "video"`); every line tests `media_constraints.video.…`, so a
missing `video` key raises `UndefinedError`. -/
def mediaVideoSection (mc : Val) : Except PyErr String := do
  let maxdur ← jAttr2 mc "video" "max_duration_sec"
  let ar ← jAttr2 mc "video" "aspect_ratio"
  let ars ← jAttr2 mc "video" "aspect_ratios"
  let captions ← jAttr2 mc "video" "captions_required"
  let hook ← jAttr2 mc "video" "hook_first_sec"
  let brand ← jAttr2 mc "video" "branding_first_sec"
  Except.ok
    ((if jTruthy maxdur then "\n- Max duration: " ++ jStr maxdur ++ " seconds" else "")
      ++ (if jTruthy ar then "\n- Aspect ratio: " ++ jStr ar
          else if jTruthy ars then "\n- Allowed aspect ratios: " ++ jStr ars else "")
      ++ (if jTruthy captions then "\n- Captions are required." else "\n- Captions are optional.")
      ++ (if jTruthy hook then
            "\n- The first " ++ jStr hook ++ " seconds must contain a strong hook."
          else "")
      ++ (if jTruthy brand then
            "\n- Branding must appear within the first " ++ jStr brand ++ " seconds."
          else ""))

/-- The carousel block of `MEDIA_PROMPT_TEMPLATE` (rendered only when
`media_type == "photo_carousel"`); all its accesses are one level deep or
guarded, so it never raises. -/
def mediaCarouselSection (mc : Val) : String :=
  "\n- This is a multi-image carousel."
  ++ (match jAttr mc "image_count" with
      | some ic =>
          if valTruthy ic then
            "\n- Number of images: between " ++ jStr (jAttr ic "min") ++ " and "
              ++ jStr (jAttr ic "max") ++ "."
          else ""
      | Option.none => "")
  ++ (if jTruthy (jAttr mc "aspect_ratio") then
        "\n- Aspect ratio: " ++ jStr (jAttr mc "aspect_ratio") ++ "."
      else "")
  ++ (if jTruthy (jAttr mc "safe_zone_required") then "\n- Safe zones must be respected." else "")
  ++ (if jTruthy (jAttr mc "ugc_style") then
        "\n- The visual style should feel like authentic UGC."
      else "")
  ++ (if jTruthy (jAttr mc "recommended_use_cases") then
        "\n- Recommended use cases: " ++ jStr (jAttr mc "recommended_use_cases") ++ "."
      else "")

/-- The `TECHNICAL CONSTRAINTS` part of `MEDIA_PROMPT_TEMPLATE`: the three
media-type blocks in template order (at most one matches). -/
def mediaTechSection (media_type mc : Val) : Except PyErr String := do
  let t1 ← (if media_type = Val.str "image" then mediaImageSection mc else Except.ok "")
  let t2 ← (if media_type = Val.str "video" then mediaVideoSection mc else Except.ok "")
  let t3 := (if media_type = Val.str "photo_carousel" then mediaCarouselSection mc else "")
  Except.ok (t1 ++ t2 ++ t3)

/-- Rendering of `MEDIA_PROMPT_TEMPLATE`, parameterized by the `FINAL OUTPUT`
tail, which is the only part in which `content_orchestration.py`/`test(1).py`
and `content_orchestrationfal.py` differ. -/
def renderMediaPrompt (platform content_type objective media_type mc : Val)
    (finalOut : Val → String) : Except PyErr String := do
  let tech ← mediaTechSection media_type mc
  Except.ok
    ("\nSYSTEM:\nYou are a senior creative director producing media content for "
      ++ pyStr platform
      ++ ".\n\nCONTEXT:\nThis media asset supports a " ++ pyStr content_type
      ++ " post.\nThe primary goal is " ++ pyStr objective
      ++ ".\nThe content must feel native to " ++ pyStr platform
      ++ " and optimized for fast-scrolling users.\n\nMEDIA TYPE:\n" ++ pyStr media_type
      ++ "\n\nTECHNICAL CONSTRAINTS (STRICT):"
      ++ tech
      ++ "\n\nCREATIVE DIRECTION:\n- The visual should clearly communicate the core idea.\n- The message must be understandable without reading additional text.\n- Avoid clutter, unnecessary elements, or visual noise."
      ++ (if media_type = Val.str "video" then
            "\n- Prioritize clarity in the first few seconds."
          else "")
      ++ "\n\nUSAGE RULES:\n- Use ONLY the information provided in the USER PROVIDED DATA section.\n- Do NOT introduce new concepts, claims, or visual elements not implied by the data.\n- Follow all constraints exactly as listed above.\n\nFINAL OUTPUT:\n"
      ++ finalOut media_type)

/-- `FINAL OUTPUT` tail of `MEDIA_PROMPT_TEMPLATE` in
`content_orchestration.py` and `test(1).py`. -/
def mediaFinalOutputMain (media_type : Val) : String :=
  "Return only a detailed visual description for generating the "
    ++ pyStr media_type ++ ".\nNo explanations.\n"

/-- `FINAL OUTPUT` tail of `MEDIA_PROMPT_TEMPLATE` in
`content_orchestrationfal.py`. -/
def mediaFinalOutputFal (media_type : Val) : String :=
  "Return only the generated " ++ pyStr media_type
    ++ ".\nNo explanations. No captions text unless explicitly required.\n"

/-- The template rendering call shared by all three `build_media_prompt`
variants: keyword arguments are evaluated left to right, so the
`plan["..."]` lookups happen in this order. -/
def renderMediaPromptOnPlan (plan : Dict) (media_type mc : Val)
    (finalOut : Val → String) : Except PyErr String := do
  let platform ← pyIndex plan "platform"
  let content_type ← pyIndex plan "content_type"
  let objective ← pyIndex plan "objective"
  renderMediaPrompt platform content_type objective media_type mc finalOut

namespace CO

/-- `build_media_prompt` from `content_orchestration.py` lines 396-407: the
selected type is read with `plan["media_constraints"].get("selected_type")`,
and the function returns `None` when it is falsy (including absent) or equals
`"text_only"`; otherwise it renders `MEDIA_PROMPT_TEMPLATE`. -/
def build_media_prompt (plan : Dict) : Except PyErr (Option String) :=
  match dget plan "media_constraints" with
  | Option.none => Except.error (PyErr.keyError "media_constraints")
  | some (Val.dict mc) =>
      let media_type := dgetD mc "selected_type" Val.none
      if valTruthy media_type = false ∨ media_type = Val.str "text_only" then
        Except.ok Option.none
      else
        (renderMediaPromptOnPlan plan media_type (Val.dict mc) mediaFinalOutputMain).map some
  | some _ => Except.error PyErr.attributeError

end CO

namespace COFal

/-- `build_media_prompt` from `content_orchestrationfal.py` lines 333-343: the
selected type is read with `plan["media_constraints"]["selected_type"]` —
direct indexing, so an absent key raises `KeyError` instead of returning
`None`; a present falsy or `"text_only"` value returns `None`. -/
def build_media_prompt (plan : Dict) : Except PyErr (Option String) :=
  match dget plan "media_constraints" with
  | Option.none => Except.error (PyErr.keyError "media_constraints")
  | some (Val.dict mc) =>
      (match dget mc "selected_type" with
       | Option.none => Except.error (PyErr.keyError "selected_type")
       | some media_type =>
          if valTruthy media_type = false ∨ media_type = Val.str "text_only" then
            Except.ok Option.none
          else
            (renderMediaPromptOnPlan plan media_type (Val.dict mc) mediaFinalOutputFal).map some)
  | some _ => Except.error PyErr.typeError

end COFal

namespace TestV

/-- `build_media_prompt` from `test(1).py` lines 407-418: direct indexing like
the fal variant, but the guard is only `if not media_type` — there is no
`"text_only"` test, so a `"text_only"` selection renders the template. -/
def build_media_prompt (plan : Dict) : Except PyErr (Option String) :=
  match dget plan "media_constraints" with
  | Option.none => Except.error (PyErr.keyError "media_constraints")
  | some (Val.dict mc) =>
      (match dget mc "selected_type" with
       | Option.none => Except.error (PyErr.keyError "selected_type")
       | some media_type =>
          if valTruthy media_type = false then
            Except.ok Option.none
          else
            (renderMediaPromptOnPlan plan media_type (Val.dict mc) mediaFinalOutputMain).map some)
  | some _ => Except.error PyErr.typeError

end TestV

theorem map_some_ne_ok_none (e : Except PyErr String) :
    Except.map some e ≠ Except.ok (Option.none : Option String) := by
  cases e <;> simp [Except.map]

/-- C8 (amended): the None-conditions of the three `build_media_prompt`
variants, as the code actually implements them.  On a plan whose
`media_constraints` entry is a dictionary: the `content_orchestration.py`
variant returns `None` exactly when `selected_type` is absent-or-falsy or is
`"text_only"` (as the original claim states); the `content_orchestrationfal.py`
variant returns `None` exactly when `selected_type` is present and falsy or
`"text_only"` (an absent key raises `KeyError` instead); the `test(1).py`
variant returns `None` exactly when `selected_type` is present and falsy — it
renders the template even for `"text_only"`.  In every other case the result
is the rendered `MEDIA_PROMPT_TEMPLATE` (or a raised lookup error), never
`None`. -/
theorem c8_build_media_prompt_none_iff (plan mc : Dict)
    (hmc : dget plan "media_constraints" = some (Val.dict mc)) :
    (CO.build_media_prompt plan = Except.ok Option.none ↔
      (valTruthy (dgetD mc "selected_type" Val.none) = false ∨
        dgetD mc "selected_type" Val.none = Val.str "text_only")) ∧
    (COFal.build_media_prompt plan = Except.ok Option.none ↔
      (∃ st, dget mc "selected_type" = some st ∧
        (valTruthy st = false ∨ st = Val.str "text_only"))) ∧
    (TestV.build_media_prompt plan = Except.ok Option.none ↔
      (∃ st, dget mc "selected_type" = some st ∧ valTruthy st = false)) := by
  refine ⟨?_, ?_, ?_⟩
  · unfold CO.build_media_prompt
    rw [hmc]
    by_cases h : valTruthy (dgetD mc "selected_type" Val.none) = false ∨
        dgetD mc "selected_type" Val.none = Val.str "text_only"
    · simp [h]
    · simp [h, map_some_ne_ok_none]
  · unfold COFal.build_media_prompt
    rw [hmc]
    dsimp only
    rcases hst : dget mc "selected_type" with _ | st
    · simp
    · by_cases h : valTruthy st = false ∨ st = Val.str "text_only"
      · simp [h]
      · simp [h, map_some_ne_ok_none]
  · unfold TestV.build_media_prompt
    rw [hmc]
    dsimp only
    rcases hst : dget mc "selected_type" with _ | st
    · simp
    · by_cases h : valTruthy st = false
      · simp [h]
      · simp [h, map_some_ne_ok_none]

/-- Witness for `c8_build_media_prompt_none_iff` at a concrete plan whose
`selected_type` is `"text_only"`. -/
theorem c8_build_media_prompt_none_iff_witness :
    (CO.build_media_prompt
        [("media_constraints", Val.dict [("selected_type", Val.str "text_only")])]
        = Except.ok Option.none ↔
      (valTruthy (dgetD [("selected_type", Val.str "text_only")] "selected_type" Val.none)
          = false ∨
        dgetD [("selected_type", Val.str "text_only")] "selected_type" Val.none
          = Val.str "text_only")) ∧
    (COFal.build_media_prompt
        [("media_constraints", Val.dict [("selected_type", Val.str "text_only")])]
        = Except.ok Option.none ↔
      (∃ st, dget [("selected_type", Val.str "text_only")] "selected_type" = some st ∧
        (valTruthy st = false ∨ st = Val.str "text_only"))) ∧
    (TestV.build_media_prompt
        [("media_constraints", Val.dict [("selected_type", Val.str "text_only")])]
        = Except.ok Option.none ↔
      (∃ st, dget [("selected_type", Val.str "text_only")] "selected_type" = some st ∧
        valTruthy st = false)) :=
  c8_build_media_prompt_none_iff
    [("media_constraints", Val.dict [("selected_type", Val.str "text_only")])]
    [("selected_type", Val.str "text_only")] (by decide)

/-- C8 counterexample: the uniform claim is false.  In `test(1).py`, a plan
whose `selected_type` is `"text_only"` does not yield `None` — the template is
rendered; and in `content_orchestrationfal.py` an absent `selected_type`
raises `KeyError` rather than returning `None` (while
`content_orchestration.py` does return `None` there). -/
theorem c8_build_media_prompt_counterexample :
    TestV.build_media_prompt
        [("platform", Val.str "X"), ("content_type", Val.str "post"),
         ("objective", Val.str "engagement"),
         ("media_constraints", Val.dict [("selected_type", Val.str "text_only")])]
      ≠ Except.ok Option.none ∧
    (TestV.build_media_prompt
        [("platform", Val.str "X"), ("content_type", Val.str "post"),
         ("objective", Val.str "engagement"),
         ("media_constraints", Val.dict [("selected_type", Val.str "text_only")])]).isOk
      = true ∧
    COFal.build_media_prompt [("media_constraints", Val.dict [])]
      = Except.error (PyErr.keyError "selected_type") ∧
    CO.build_media_prompt [("media_constraints", Val.dict [])]
      = Except.ok Option.none := by
  refine ⟨by decide, by decide, by decide, by decide⟩

/-- `build_text_user_data_block` (byte-identical in all three source files):
an f-string over `user_inputs.get(...)` values, which Python formats with
`str()` (a missing key prints as `None`). -/
def build_text_user_data_block (user_inputs : Dict) : String :=
  "\n====================\nUSER PROVIDED DATA\n====================\n\nCONTENT IDEA:\n"
    ++ pyStr (dgetD user_inputs "content_idea" Val.none)
    ++ "\n\nCONTEXT / DESCRIPTION:\n"
    ++ pyStr (dgetD user_inputs "description" Val.none)
    ++ "\n\nREFERENCE TEXT:\n"
    ++ pyStr (dgetD user_inputs "reference_text" Val.none)
    ++ "\n\n====================\nRULES\n====================\n- All fields above are provided by the user\n- Use them as the sole source of truth\n- Do NOT invent missing information\n"

/-- `build_media_user_data_block` (byte-identical in all three source files):
the two reference-file paragraphs appear only when the corresponding uploaded
file value is truthy. -/
def build_media_user_data_block (user_inputs uploaded_files : Dict) : String :=
  "\n====================\nUSER PROVIDED DATA\n====================\n\nCORE IDEA:\n"
    ++ pyStr (dgetD user_inputs "content_idea" Val.none)
    ++ "\n\nCONTEXT / DESCRIPTION:\n"
    ++ pyStr (dgetD user_inputs "description" Val.none)
    ++ "\n\n"
    ++ (if valTruthy (dgetD uploaded_files "reference_image" Val.none) then
          "\nVISUAL REFERENCE:\nUse the attached image(s) as visual/style reference.\n"
        else "")
    ++ "\n\n"
    ++ (if valTruthy (dgetD uploaded_files "video_init_image" Val.none) then
          "\nINITIAL FRAME:\nUse the attached image as the starting frame.\n"
        else "")
    ++ "\n\n====================\nRULES\n====================\n- All fields above are provided by the user\n- Use them as the sole source of truth\n- Do NOT invent visual elements not implied by the data\n"

namespace CO

/-- `build_final_model_input` from `content_orchestration.py` lines 473-513:
text prompt, media prompt (possibly `None`), the user-data blocks and the
media payload.  A media prompt that is `None` (or the empty string, which is
falsy) makes `media_model_input` `None`. -/
def build_final_model_input (plan user_inputs uploaded_files : Dict) :
    Except PyErr Dict := do
  let text_prompt ← build_text_prompt plan
  let media_prompt ← CO.build_media_prompt plan
  let text_user_data := build_text_user_data_block user_inputs
  let media_user_data := build_media_user_data_block user_inputs uploaded_files
  match dgetD plan "media_constraints" (Val.dict []) with
  | Val.dict mc =>
      let selected_type := dgetD mc "selected_type" Val.none
      Except.ok
        [("text_model_input", Val.str (text_prompt ++ "\n\n" ++ text_user_data)),
         ("media_payload", Val.dict
           [("media_model_input",
             (match media_prompt with
              | some mp =>
                  if mp = "" then Val.none
                  else Val.str (mp ++ "\n\n" ++ media_user_data)
              | Option.none => Val.none)),
            ("media_type", selected_type),
            ("media_constraints", Val.dict
              [("allowed_types", dgetD mc "allowed_types" (Val.list [])),
               ("selected_type", selected_type),
               ("image", dgetD mc "image" Val.none),
               ("video", dgetD mc "video" Val.none),
               ("image_count", dgetD mc "image_count" Val.none),
               ("aspect_ratio", dgetD mc "aspect_ratio" Val.none),
               ("safe_zone_required", dgetD mc "safe_zone_required" (Val.bool false)),
               ("ugc_style", dgetD mc "ugc_style" (Val.bool false)),
               ("supports_audio", dgetD mc "supports_audio" (Val.bool false)),
               ("recommended_use_cases", dgetD mc "recommended_use_cases" (Val.list []))]),
            ("reference_image", dgetD uploaded_files "reference_image" Val.none),
            ("video_init_image", dgetD uploaded_files "video_init_image" Val.none)]),
         ("generation_plan", Val.dict plan)]
  | _ => Except.error PyErr.attributeError

end CO

namespace COFal

/-- `build_final_model_input` from `content_orchestrationfal.py` lines
401-418: a flatter payload than the main variant — the rendered media model
input, the two uploaded files, and the plan. -/
def build_final_model_input (plan user_inputs uploaded_files : Dict) :
    Except PyErr Dict := do
  let text_prompt ← build_text_prompt plan
  let media_prompt ← COFal.build_media_prompt plan
  let text_user_data := build_text_user_data_block user_inputs
  let media_user_data := build_media_user_data_block user_inputs uploaded_files
  Except.ok
    [("text_model_input", Val.str (text_prompt ++ "\n\n" ++ text_user_data)),
     ("media_model_input",
       (match media_prompt with
        | some mp =>
            if mp = "" then Val.none
            else Val.str (mp ++ "\n\n" ++ media_user_data)
        | Option.none => Val.none)),
     ("media_payload", Val.dict
       [("reference_image", dgetD uploaded_files "reference_image" Val.none),
        ("video_init_image", dgetD uploaded_files "video_init_image" Val.none)]),
     ("generation_plan", Val.dict plan)]

end COFal

/-- The external services and the filesystem, as unspecified total oracles.
Each generation wrapper in the sources catches every exception of the
underlying client call and returns an error string instead, so a total
string-valued function is a faithful model of each service. -/
structure Oracles where
  gemini : String → String
  replicateImage : Dict → String
  replicateVideo : Dict → String
  falImage : Dict → String
  falVideo : Dict → String
  fileExists : String → Bool

/-- `generate_text_with_gemini` (identical in the source files): one Gemini
call, total because the wrapper catches all exceptions. -/
def generate_text_with_gemini (O : Oracles) (prompt : String) : String :=
  O.gemini prompt

/-- `generate_image_with_replicate` from `content_orchestration.py` lines
50-67: `input_params` is just the prompt (the `reference_image` argument is
accepted but never used by this function). -/
def generate_image_with_replicate (O : Oracles) (prompt : String)
    (reference_image : Val) : String :=
  O.replicateImage [("prompt", Val.str prompt)]

/-- `generate_video_with_replicate` from `content_orchestration.py` lines
69-104: attaches the init image parameter when it is an http URL or an
existing file (the opened file handle is represented by its path; the
filesystem is the `fileExists` oracle).  Calling `.startswith` on a truthy
non-string init image raises `AttributeError` before the guarded API call. -/
def generate_video_with_replicate (O : Oracles) (prompt : String)
    (init_image : Val) : Except PyErr String :=
  let base : Dict :=
    [("prompt", Val.str prompt), ("aspect_ratio", Val.str "16:9"),
     ("model", Val.str "0.9.1")]
  if valTruthy init_image then
    match init_image with
    | Val.str s =>
        Except.ok (O.replicateVideo
          (if s.startsWith "http" then dset base "image" (Val.str s)
           else if O.fileExists s then dset base "image" (Val.str s)
           else base))
    | _ => Except.error PyErr.attributeError
  else Except.ok (O.replicateVideo base)

/-- Python `range(n)` bound for the carousel loop: an `int` (or `bool`, which
is an `int` in Python) gives its value clamped at zero; any other value makes
`range` raise `TypeError`. -/
def pyRangeCount : Val → Except PyErr Nat
  | Val.int i => Except.ok i.toNat
  | Val.bool b => Except.ok (if b then 1 else 0)
  | _ => Except.error PyErr.typeError

/-- The `selected_type` recorded in a (normalized) plan's media constraints:
the value `orchestrate_content_generation` and the LangGraph nodes branch
on. -/
def planSelectedType (plan : Dict) : Val :=
  match dget plan "media_constraints" with
  | some (Val.dict mc) => dgetD mc "selected_type" Val.none
  | _ => Val.none

namespace CO

/-- The media-generation `try` block of `orchestrate_content_generation`
(`content_orchestration.py` lines 546-569): compute the media result for the
selected type; an exception anywhere inside is caught by the caller and
leaves the result `None`. -/
def mediaTry (O : Oracles) (plan media_payload : Dict) (media_type : Val)
    (visual_prompt : String) : Except PyErr Val :=
  if media_type = Val.str "image" then
    Except.ok (Val.str (generate_image_with_replicate O visual_prompt
      (dgetD media_payload "reference_image" Val.none)))
  else if media_type = Val.str "video" then
    (generate_video_with_replicate O visual_prompt
      (dgetD media_payload "video_init_image" Val.none)).map Val.str
  else if media_type = Val.str "photo_carousel" then do
    let mcV ← pyIndex plan "media_constraints"
    match mcV with
    | Val.dict mc =>
        let min_images ←
          (match dgetD mc "image_count" (Val.dict []) with
           | Val.dict ic => pyRangeCount (dgetD ic "min" (Val.int 1))
           | _ => Except.ok 1)
        Except.ok (Val.list ((List.range min_images).map (fun i =>
          Val.str (generate_image_with_replicate O
            (visual_prompt ++ " - Slide " ++ toString (i + 1))
            (dgetD media_payload "reference_image" Val.none)))))
    | _ => Except.error PyErr.attributeError
  else Except.ok Val.none

/-- `orchestrate_content_generation` from `content_orchestration.py` lines
519-576: build and normalize the plan, build the model inputs, generate the
post text with Gemini, and — unless the selected media type is falsy or
`"text_only"` — refine a visual prompt and generate the media asset,
swallowing any media-generation exception.  By construction the
`text_model_input` entry is a string, so `pyStr` extracts exactly the prompt
that Python passes to Gemini. -/
def orchestrate_content_generation (O : Oracles) (rules : Dict)
    (platform intent : String) (user_inputs uploaded_files : Dict)
    (user_media_choice : Option String) : Except PyErr Dict := do
  let raw_plan ← build_generation_plan rules platform intent
  let plan ← CO.normalize_plan raw_plan user_media_choice
  let final_input ← CO.build_final_model_input plan user_inputs uploaded_files
  let tmiV ← pyIndex final_input "text_model_input"
  let post_text := generate_text_with_gemini O (pyStr tmiV)
  let mpV ← pyIndex final_input "media_payload"
  match mpV with
  | Val.dict media_payload => do
      let media_type ← pyIndex media_payload "media_type"
      if valTruthy media_type = false ∨ media_type = Val.str "text_only" then
        Except.ok [("text", Val.str post_text), ("media", Val.none)]
      else
        let visual_prompt_request :=
          "Based on this social media post: \x27" ++ post_text
            ++ "\x27, create a detailed visual prompt for an " ++ pyStr media_type
            ++ " generation. Focus on style, lighting, and composition. Return only the prompt."
        let visual_prompt := generate_text_with_gemini O visual_prompt_request
        let media_result :=
          match CO.mediaTry O plan media_payload media_type visual_prompt with
          | Except.ok v => v
          | Except.error _ => Val.none
        Except.ok [("text", Val.str post_text), ("media", media_result)]
  | _ => Except.error PyErr.typeError

end CO

theorem except_bind_ok {α β : Type} (a : α) (f : α → Except PyErr β) :
    (Except.ok a >>= f : Except PyErr β) = f a := rfl

/-- Every successfully normalized plan of `content_orchestration.py` has the
fixed shape the downstream prompt builders rely on: all the template keys are
present, `media_constraints` is a dictionary containing `selected_type`,
`image` and `video`. -/
theorem co_normalize_ok_shape (raw : Dict) (user : Option String) (plan : Dict)
    (h : CO.normalize_plan raw user = Except.ok plan) :
    (∃ v, dget plan "platform" = some v) ∧
    (∃ v, dget plan "content_type" = some v) ∧
    (∃ v, dget plan "objective" = some v) ∧
    (∃ v, dget plan "tone" = some v) ∧
    (∃ v, dget plan "text_constraints" = some v) ∧
    ∃ mc, dget plan "media_constraints" = some (Val.dict mc) ∧
      dgetD plan "media_constraints" (Val.dict []) = Val.dict mc ∧
      dget mc "selected_type" = some (planSelectedType plan) ∧
      (∃ v, dget mc "image" = some v) ∧
      (∃ v, dget mc "video" = some v) := by
  unfold CO.normalize_plan at h
  split at h
  all_goals try exact Except.noConfusion h
  rename_i media heq
  simp only [Except.ok.injEq] at h
  subst h
  exact ⟨⟨_, rfl⟩, ⟨_, rfl⟩, ⟨_, rfl⟩, ⟨_, rfl⟩, ⟨_, rfl⟩,
    _, rfl, rfl, rfl, ⟨_, rfl⟩, ⟨_, rfl⟩⟩

theorem mediaImageSection_ok (mc : Dict) (v : Val) (h : dget mc "image" = some v) :
    ∃ s, mediaImageSection (Val.dict mc) = Except.ok s := by
  unfold mediaImageSection jAttr2
  simp only [jAttr, h, except_bind_ok]
  exact ⟨_, rfl⟩

theorem mediaVideoSection_ok (mc : Dict) (v : Val) (h : dget mc "video" = some v) :
    ∃ s, mediaVideoSection (Val.dict mc) = Except.ok s := by
  unfold mediaVideoSection jAttr2
  simp only [jAttr, h, except_bind_ok]
  exact ⟨_, rfl⟩

theorem mediaTechSection_ok (mt : Val) (mc : Dict) (vi vv : Val)
    (hi : dget mc "image" = some vi) (hv : dget mc "video" = some vv) :
    ∃ s, mediaTechSection mt (Val.dict mc) = Except.ok s := by
  obtain ⟨s1, e1⟩ := mediaImageSection_ok mc vi hi
  obtain ⟨s2, e2⟩ := mediaVideoSection_ok mc vv hv
  unfold mediaTechSection
  split_ifs <;> exact ⟨_, by simp only [e1, e2, except_bind_ok]; rfl⟩

theorem except_bind_exists {α β : Type} (e : Except PyErr α) (f : α → Except PyErr β)
    (h1 : ∃ a, e = Except.ok a) (h2 : ∀ a, ∃ b, f a = Except.ok b) :
    ∃ b, (e >>= f) = Except.ok b := by
  obtain ⟨a, rfl⟩ := h1
  exact h2 a

theorem renderMediaPromptOnPlan_ok (plan : Dict) (mt mcv : Val)
    (fo : Val → String) (pv cv ov : Val)
    (hp : dget plan "platform" = some pv)
    (hc : dget plan "content_type" = some cv)
    (ho : dget plan "objective" = some ov)
    (htech : ∃ s, mediaTechSection mt mcv = Except.ok s) :
    ∃ s, renderMediaPromptOnPlan plan mt mcv fo = Except.ok s := by
  unfold renderMediaPromptOnPlan
  apply except_bind_exists
  · exact ⟨pv, by unfold pyIndex; rw [hp]⟩
  · intro a
    apply except_bind_exists
    · exact ⟨cv, by unfold pyIndex; rw [hc]⟩
    · intro b
      apply except_bind_exists
      · exact ⟨ov, by unfold pyIndex; rw [ho]⟩
      · intro c
        unfold renderMediaPrompt
        apply except_bind_exists
        · exact htech
        · intro t
          exact ⟨_, rfl⟩

/-- C7: for every valid platform and intent (and every rules table and user
payload for which planning and normalization succeed), the orchestration
entry point of `content_orchestration.py` returns a dictionary with exactly
the keys `"text"` and `"media"`; the text is always the Gemini output for the
built text-model input, and the media entry is `None` whenever the
normalized plan's selected media type is absent/falsy or `"text_only"`. -/
theorem c7_orchestrate_text_and_optional_media (O : Oracles) (rules : Dict)
    (platform intent : String) (user_inputs uploaded_files : Dict)
    (choice : Option String) (raw plan : Dict)
    (h1 : build_generation_plan rules platform intent = Except.ok raw)
    (h2 : CO.normalize_plan raw choice = Except.ok plan) :
    ∃ ti m, CO.orchestrate_content_generation O rules platform intent
        user_inputs uploaded_files choice
      = Except.ok [("text", Val.str (O.gemini ti)), ("media", m)] ∧
      ((valTruthy (planSelectedType plan) = false ∨
          planSelectedType plan = Val.str "text_only") → m = Val.none) := by
  obtain ⟨⟨pv, hpv⟩, ⟨cv, hcv⟩, ⟨ov, hov⟩, ⟨tv, htv⟩, ⟨tcv, htcv⟩,
    mc, hmc, hmcD, hsel, ⟨iv, hiv⟩, ⟨vv, hvv⟩⟩ := co_normalize_ok_shape raw choice plan h2
  have hpst : planSelectedType plan = dgetD mc "selected_type" Val.none := by
    unfold planSelectedType
    rw [hmc]
  obtain ⟨tp, htp⟩ : ∃ tp, build_text_prompt plan = Except.ok tp := by
    unfold build_text_prompt
    apply except_bind_exists
    · exact ⟨pv, by unfold pyIndex; rw [hpv]⟩
    · intro a
      apply except_bind_exists
      · exact ⟨ov, by unfold pyIndex; rw [hov]⟩
      · intro b
        apply except_bind_exists
        · exact ⟨cv, by unfold pyIndex; rw [hcv]⟩
        · intro c
          apply except_bind_exists
          · exact ⟨tv, by unfold pyIndex; rw [htv]⟩
          · intro d
            apply except_bind_exists
            · exact ⟨tcv, by unfold pyIndex; rw [htcv]⟩
            · intro e
              exact ⟨_, rfl⟩
  by_cases hskip : valTruthy (dgetD mc "selected_type" Val.none) = false ∨
      dgetD mc "selected_type" Val.none = Val.str "text_only"
  · have hbmp : CO.build_media_prompt plan = Except.ok Option.none := by
      unfold CO.build_media_prompt
      rw [hmc]
      simp [hskip]
    have hbfi : CO.build_final_model_input plan user_inputs uploaded_files
        = Except.ok
          [("text_model_input",
             Val.str (tp ++ "\n\n" ++ build_text_user_data_block user_inputs)),
           ("media_payload", Val.dict
             [("media_model_input", Val.none),
              ("media_type", dgetD mc "selected_type" Val.none),
              ("media_constraints", Val.dict
                [("allowed_types", dgetD mc "allowed_types" (Val.list [])),
                 ("selected_type", dgetD mc "selected_type" Val.none),
                 ("image", dgetD mc "image" Val.none),
                 ("video", dgetD mc "video" Val.none),
                 ("image_count", dgetD mc "image_count" Val.none),
                 ("aspect_ratio", dgetD mc "aspect_ratio" Val.none),
                 ("safe_zone_required", dgetD mc "safe_zone_required" (Val.bool false)),
                 ("ugc_style", dgetD mc "ugc_style" (Val.bool false)),
                 ("supports_audio", dgetD mc "supports_audio" (Val.bool false)),
                 ("recommended_use_cases", dgetD mc "recommended_use_cases" (Val.list []))]),
              ("reference_image", dgetD uploaded_files "reference_image" Val.none),
              ("video_init_image", dgetD uploaded_files "video_init_image" Val.none)]),
           ("generation_plan", Val.dict plan)] := by
      unfold CO.build_final_model_input
      simp only [htp, hbmp, except_bind_ok]
      rw [hmcD]
    refine ⟨tp ++ "\n\n" ++ build_text_user_data_block user_inputs, Val.none, ?_,
      fun _ => rfl⟩
    unfold CO.orchestrate_content_generation
    simp only [h1, h2, hbfi, except_bind_ok]
    simp [pyIndex, dget, generate_text_with_gemini, pyStr, except_bind_ok, hskip]
  · obtain ⟨r, hr⟩ := renderMediaPromptOnPlan_ok plan
      (dgetD mc "selected_type" Val.none) (Val.dict mc) mediaFinalOutputMain
      pv cv ov hpv hcv hov (mediaTechSection_ok _ mc iv vv hiv hvv)
    have hbmp : CO.build_media_prompt plan = Except.ok (some r) := by
      unfold CO.build_media_prompt
      rw [hmc]
      simp [hskip, hr, Except.map]
    have hbfi : CO.build_final_model_input plan user_inputs uploaded_files
        = Except.ok
          [("text_model_input",
             Val.str (tp ++ "\n\n" ++ build_text_user_data_block user_inputs)),
           ("media_payload", Val.dict
             [("media_model_input",
               (if r = "" then Val.none
                else Val.str (r ++ "\n\n"
                  ++ build_media_user_data_block user_inputs uploaded_files))),
              ("media_type", dgetD mc "selected_type" Val.none),
              ("media_constraints", Val.dict
                [("allowed_types", dgetD mc "allowed_types" (Val.list [])),
                 ("selected_type", dgetD mc "selected_type" Val.none),
                 ("image", dgetD mc "image" Val.none),
                 ("video", dgetD mc "video" Val.none),
                 ("image_count", dgetD mc "image_count" Val.none),
                 ("aspect_ratio", dgetD mc "aspect_ratio" Val.none),
                 ("safe_zone_required", dgetD mc "safe_zone_required" (Val.bool false)),
                 ("ugc_style", dgetD mc "ugc_style" (Val.bool false)),
                 ("supports_audio", dgetD mc "supports_audio" (Val.bool false)),
                 ("recommended_use_cases", dgetD mc "recommended_use_cases" (Val.list []))]),
              ("reference_image", dgetD uploaded_files "reference_image" Val.none),
              ("video_init_image", dgetD uploaded_files "video_init_image" Val.none)]),
           ("generation_plan", Val.dict plan)] := by
      unfold CO.build_final_model_input
      simp only [htp, hbmp, except_bind_ok]
      rw [hmcD]
    obtain ⟨m, hm⟩ : ∃ m, CO.orchestrate_content_generation O rules platform intent
        user_inputs uploaded_files choice
        = Except.ok
          [("text", Val.str (O.gemini (tp ++ "\n\n" ++ build_text_user_data_block user_inputs))),
           ("media", m)] := by
      unfold CO.orchestrate_content_generation
      simp only [h1, h2, hbfi, except_bind_ok]
      simp [pyIndex, dget, generate_text_with_gemini, pyStr, except_bind_ok, hskip]
      try exact ⟨_, rfl⟩
    refine ⟨tp ++ "\n\n" ++ build_text_user_data_block user_inputs, m, hm, ?_⟩
    intro hcond
    rw [hpst] at hcond
    exact absurd hcond hskip

/-- Concrete oracles for witnesses: constant generation results, no files. -/
def oraclesEx : Oracles :=
  ⟨fun _ => "post-text", fun _ => "img-url", fun _ => "vid-url",
   fun _ => "fal-img", fun _ => "fal-vid", fun _ => false⟩

/-- Witness rules table: platform `X` with a single `DEFAULT` intent. -/
def exRules : Dict :=
  [("X", Val.dict [("DEFAULT", Val.dict
    [("content_type", Val.str "post"),
     ("media_constraints", Val.dict [("type", Val.str "optional")])])])]

/-- The raw plan `build_generation_plan exRules "X" "DEFAULT"` produces. -/
def exRaw : Dict :=
  [("content_type", Val.str "post"),
   ("media_constraints", Val.dict [("type", Val.str "optional")]),
   ("_meta", Val.dict [("platform", Val.str "X"), ("intent", Val.str "DEFAULT")])]

/-- The normalized plan `CO.normalize_plan exRaw Option.none` produces. -/
def exPlan : Dict :=
  [("platform", Val.none), ("content_type", Val.str "post"),
   ("objective", Val.none), ("tone", Val.none),
   ("text_constraints", Val.dict []),
   ("media_constraints", Val.dict
     [("allowed_types", Val.list [Val.str "image", Val.str "video"]),
      ("selected_type", Val.str "image"),
      ("raw", Val.dict [("type", Val.str "optional")]),
      ("image", Val.dict []), ("video", Val.dict []),
      ("image_count", Val.none), ("aspect_ratio", Val.none),
      ("safe_zone_required", Val.bool false), ("ugc_style", Val.bool false),
      ("supports_audio", Val.bool false), ("recommended_use_cases", Val.list [])]),
   ("cta_style", Val.none), ("optimization_goal", Val.none),
   ("variation_count", Val.none),
   ("_meta", Val.dict [("platform", Val.str "X"), ("intent", Val.str "DEFAULT")])]

/-- Witness for `c7_orchestrate_text_and_optional_media` on the concrete
rules table `exRules`. -/
theorem c7_orchestrate_text_and_optional_media_witness :
    ∃ ti m, CO.orchestrate_content_generation oraclesEx exRules "X" "DEFAULT"
        [] [] Option.none
      = Except.ok [("text", Val.str (oraclesEx.gemini ti)), ("media", m)] ∧
      ((valTruthy (planSelectedType exPlan) = false ∨
          planSelectedType exPlan = Val.str "text_only") → m = Val.none) :=
  c7_orchestrate_text_and_optional_media oraclesEx exRules "X" "DEFAULT"
    [] [] Option.none exRaw exPlan
    (by
      have hup : pyUpper "X" = "X" := by decide
      simp [build_generation_plan, exRules, exRaw, hup, deep_merge, dget, dset])
    (by decide)

/-- One external API call issued by a LangGraph node, with the full argument
payload that was sent. -/
inductive ApiCall where
  | gemini : String → ApiCall
  | falImage : Dict → ApiCall
  | falVideo : Dict → ApiCall
deriving Repr, DecidableEq

/-- The LangGraph `AgentState` channels (`content_orchestrationfal.py` lines
15-35).  Each field is `Option`-wrapped: `none` models a channel that is
absent from the state (LangGraph channels exist only once supplied or
written); reading an absent key with `state["k"]` raises `KeyError` while
`state.get("k")` yields Python `None`.  Field types follow the `TypedDict`
annotations. -/
structure AgentState where
  platform : Option String := Option.none
  intent : Option String := Option.none
  user_inputs : Option Dict := Option.none
  uploaded_files : Option Dict := Option.none
  user_media_choice : Option (Option String) := Option.none
  generation_plan : Option Dict := Option.none
  text_model_input : Option String := Option.none
  media_payload : Option Dict := Option.none
  visual_prompt : Option (Option String) := Option.none
  generated_text : Option String := Option.none
  generated_media_url : Option Val := Option.none
  status : Option String := Option.none
  errors : Option (List String) := Option.none
deriving Repr, DecidableEq

/-- A partial state update as returned by a LangGraph node; only the set
fields are merged into the state (all channels use the default last-value
reducer). -/
structure StateUpdate where
  generation_plan : Option Dict := Option.none
  text_model_input : Option String := Option.none
  media_payload : Option Dict := Option.none
  visual_prompt : Option (Option String) := Option.none
  generated_text : Option String := Option.none
  generated_media_url : Option Val := Option.none
  status : Option String := Option.none
  errors : Option (List String) := Option.none
deriving Repr, DecidableEq

/-- LangGraph merging of a node's partial update into the running state. -/
def applyUpdate (s : AgentState) (u : StateUpdate) : AgentState :=
  { s with
    generation_plan := (u.generation_plan).orElse (fun _ => s.generation_plan),
    text_model_input := (u.text_model_input).orElse (fun _ => s.text_model_input),
    media_payload := (u.media_payload).orElse (fun _ => s.media_payload),
    visual_prompt := (u.visual_prompt).orElse (fun _ => s.visual_prompt),
    generated_text := (u.generated_text).orElse (fun _ => s.generated_text),
    generated_media_url := (u.generated_media_url).orElse (fun _ => s.generated_media_url),
    status := (u.status).orElse (fun _ => s.status),
    errors := (u.errors).orElse (fun _ => s.errors) }

/-- Python `state["k"]` on an `Option`-modelled channel. -/
def stGet {α : Type} (o : Option α) (k : String) : Except PyErr α :=
  match o with
  | some v => Except.ok v
  | Option.none => Except.error (PyErr.keyError k)

/-- Python `str(e)` of a raised exception, as interpolated into the nodes'
failure messages (a `KeyError` prints its key quoted; the texts for
attribute/type errors are representative — only their presence matters). -/
def errMsg : PyErr → String
  | PyErr.valueError m => m
  | PyErr.keyError k => "\x27" ++ k ++ "\x27"
  | PyErr.attributeError => "attribute error"
  | PyErr.typeError => "type error"
  | PyErr.undefinedError => "undefined error"

/-- The update every node's `except Exception` clause returns: only `errors`
(the input errors extended by exactly one message) and `status := "failed"`
are set, so the rest of the state is untouched. -/
def failUpdate (s : AgentState) (msg : String) : StateUpdate :=
  { errors := some (s.errors.getD [] ++ [msg]), status := some "failed" }

/-- Truthiness of `state.get(...)` on an `Option (Option String)` channel. -/
def optOptStrTruthy : Option (Option String) → Bool
  | some (some s) => !(s == "")
  | _ => false

/-- `generate_image_with_fal` from `content_orchestrationfal.py` lines 66-93:
builds the arguments dictionary (`.get` on a non-dictionary constraints value
raises `AttributeError` before the guarded API call) and performs one fal.ai
call, returning the oracle's answer together with the call record. -/
def generate_image_with_fal (O : Oracles) (prompt : String) (constraints : Val)
    (reference_image : Val) : Except PyErr (String × ApiCall) :=
  match constraints with
  | Val.dict c =>
      let args₀ : Dict :=
        [("prompt", Val.str prompt), ("output_format", Val.str "png"),
         ("width", dgetD c "width" (Val.int 1024)),
         ("height", dgetD c "height" (Val.int 1024))]
      let args := if valTruthy reference_image
        then dset args₀ "image_input" (Val.list [reference_image]) else args₀
      Except.ok (O.falImage args, ApiCall.falImage args)
  | _ => Except.error PyErr.attributeError

/-- `generate_video_with_fal` from `content_orchestrationfal.py` lines
95-123. -/
def generate_video_with_fal (O : Oracles) (prompt : String) (constraints : Val)
    (init_image : Val) : Except PyErr (String × ApiCall) :=
  match constraints with
  | Val.dict c =>
      let args₀ : Dict :=
        [("prompt", Val.str prompt),
         ("duration", dgetD c "max_duration_sec" (Val.int 8)),
         ("resolution", dgetD c "resolution" (Val.str "1080p")),
         ("aspect_ratio", dgetD c "aspect_ratio" (Val.str "16:9")),
         ("generate_audio", dgetD c "supports_audio" (Val.bool true))]
      let args := if valTruthy init_image then dset args₀ "image" init_image else args₀
      Except.ok (O.falVideo args, ApiCall.falVideo args)
  | _ => Except.error PyErr.attributeError

namespace COFal

/-- The `try` body of `planner_node` (`content_orchestrationfal.py` lines
424-431): read the inputs from the state, build and normalize the plan.  It
issues no API call. -/
def planner_body (rules : Dict) (s : AgentState) :
    Except PyErr (StateUpdate × List ApiCall) := do
  let platform ← stGet s.platform "platform"
  let intent ← stGet s.intent "intent"
  let choice ← stGet s.user_media_choice "user_media_choice"
  let raw ← build_generation_plan rules platform intent
  let plan ← COFal.normalize_plan raw choice
  Except.ok ({ generation_plan := some plan, status := some "plan_generated",
               errors := some [] }, [])

/-- `planner_node`: the body wrapped in `try/except Exception`. -/
def planner_node (rules : Dict) (s : AgentState) : StateUpdate × List ApiCall :=
  match planner_body rules s with
  | Except.ok r => r
  | Except.error e => (failUpdate s ("Planner failed: " ++ errMsg e), [])

/-- The `try` body of `prompt_engineer_node` (lines 433-449): build the final
model input and store the text input, the media payload and the (possibly
`None`) media model input renamed to `visual_prompt`.  It issues no API
call.  By construction `text_model_input` is a string and `media_payload` a
dictionary; the type-confusion fallbacks are unreachable. -/
def prompt_engineer_body (s : AgentState) :
    Except PyErr (StateUpdate × List ApiCall) := do
  let plan ← stGet s.generation_plan "generation_plan"
  let ui ← stGet s.user_inputs "user_inputs"
  let uf ← stGet s.uploaded_files "uploaded_files"
  let fi ← COFal.build_final_model_input plan ui uf
  let tmi ← (match dget fi "text_model_input" with
    | some (Val.str t) => Except.ok t
    | some _ => Except.error PyErr.typeError
    | Option.none => Except.error (PyErr.keyError "text_model_input"))
  let mp ← (match dgetD fi "media_payload" (Val.dict []) with
    | Val.dict d => Except.ok d
    | _ => Except.error PyErr.typeError)
  let vp : Option String :=
    (match dgetD fi "media_model_input" Val.none with
     | Val.str v => some v
     | _ => Option.none)
  Except.ok ({ text_model_input := some tmi, media_payload := some mp,
               visual_prompt := some vp, status := some "prompts_engineered",
               errors := some [] }, [])

/-- `prompt_engineer_node`: the body wrapped in `try/except Exception`. -/
def prompt_engineer_node (s : AgentState) : StateUpdate × List ApiCall :=
  match prompt_engineer_body s with
  | Except.ok r => r
  | Except.error e => (failUpdate s ("Prompt Engineer failed: " ++ errMsg e), [])

/-- The `try` body of `copywriter_node` (lines 451-460): raise when the text
model input is missing or empty, otherwise one Gemini call. -/
def copywriter_body (O : Oracles) (s : AgentState) :
    Except PyErr (StateUpdate × List ApiCall) :=
  if optStrTruthy s.text_model_input = false then
    Except.error (PyErr.valueError "Text model input missing.")
  else do
    let tmi ← stGet s.text_model_input "text_model_input"
    Except.ok ({ generated_text := some (generate_text_with_gemini O tmi),
                 status := some "text_generated", errors := some [] },
               [ApiCall.gemini tmi])

/-- `copywriter_node`: the body wrapped in `try/except Exception`. -/
def copywriter_node (O : Oracles) (s : AgentState) : StateUpdate × List ApiCall :=
  match copywriter_body O s with
  | Except.ok r => r
  | Except.error e => (failUpdate s ("Copywriter failed: " ++ errMsg e), [])

/-- The `try` body of `visual_refiner_node` (lines 462-478): skip when the
selected media type is falsy or `"text_only"`, raise when the generated text
is missing, otherwise one Gemini call refining the visual prompt. -/
def visual_refiner_body (O : Oracles) (s : AgentState) :
    Except PyErr (StateUpdate × List ApiCall) := do
  let plan ← stGet s.generation_plan "generation_plan"
  let mcV ← pyIndex plan "media_constraints"
  match mcV with
  | Val.dict mc =>
      let media_type := dgetD mc "selected_type" Val.none
      if valTruthy media_type = false ∨ media_type = Val.str "text_only" then
        Except.ok ({ visual_prompt := some Option.none,
                     status := some "visual_refiner_skipped", errors := some [] }, [])
      else if optStrTruthy s.generated_text = false then
        Except.error (PyErr.valueError "Generated text missing for media prompt refinement.")
      else do
        let gt ← stGet s.generated_text "generated_text"
        let req := "Based on this social media post: \x27" ++ gt
          ++ "\x27, create a detailed visual prompt for an " ++ pyStr media_type
          ++ " generation. Focus on style, lighting, and composition. Return only the prompt."
        Except.ok ({ visual_prompt := some (some (generate_text_with_gemini O req)),
                     status := some "visual_prompt_refined", errors := some [] },
                   [ApiCall.gemini req])
  | _ => Except.error PyErr.attributeError

/-- `visual_refiner_node`: the body wrapped in `try/except Exception`. -/
def visual_refiner_node (O : Oracles) (s : AgentState) : StateUpdate × List ApiCall :=
  match visual_refiner_body O s with
  | Except.ok r => r
  | Except.error e => (failUpdate s ("Visual Refiner failed: " ++ errMsg e), [])

/-- The carousel loop of `media_producer_node` (lines 505-517): one fal.ai
image call per slide.  The only failure of `generate_image_with_fal` is a
non-dictionary constraints value, which is the same in every iteration, so a
failure always happens before any call is made. -/
def carouselLoop (O : Oracles) (vp : String) (constraints ref : Val) :
    List Nat → Except PyErr (List Val × List ApiCall)
  | [] => Except.ok ([], [])
  | i :: rest => do
      let (url, call) ← generate_image_with_fal O
        (vp ++ " - Slide " ++ toString (i + 1)) constraints ref
      let (urls, calls) ← carouselLoop O vp constraints ref rest
      Except.ok (Val.str url :: urls, call :: calls)

/-- The `try` body of `media_producer_node` (lines 480-521): skip when the
selected media type is falsy or `"text_only"`, raise when the visual prompt
is missing, otherwise one fal.ai call for image/video, one call per slide for
a photo carousel, and no call (with a `None` result) for any other type. -/
def media_producer_body (O : Oracles) (s : AgentState) :
    Except PyErr (StateUpdate × List ApiCall) := do
  let plan ← stGet s.generation_plan "generation_plan"
  let mcV ← pyIndex plan "media_constraints"
  match mcV with
  | Val.dict mc =>
      let media_type := dgetD mc "selected_type" Val.none
      if valTruthy media_type = false ∨ media_type = Val.str "text_only" then
        Except.ok ({ generated_media_url := some Val.none,
                     status := some "media_producer_skipped", errors := some [] }, [])
      else if optOptStrTruthy s.visual_prompt = false then
        Except.error (PyErr.valueError "Visual prompt missing for media generation.")
      else
        match s.visual_prompt with
        | some (some vp) => do
            let uf ← stGet s.uploaded_files "uploaded_files"
            if media_type = Val.str "image" then do
              let (url, call) ← generate_image_with_fal O vp
                (dgetD mc "image" (Val.dict []))
                (dgetD uf "reference_image" Val.none)
              Except.ok ({ generated_media_url := some (Val.str url),
                           status := some "media_produced", errors := some [] }, [call])
            else if media_type = Val.str "video" then do
              let (url, call) ← generate_video_with_fal O vp
                (dgetD mc "video" (Val.dict []))
                (dgetD uf "video_init_image" Val.none)
              Except.ok ({ generated_media_url := some (Val.str url),
                           status := some "media_produced", errors := some [] }, [call])
            else if media_type = Val.str "photo_carousel" then do
              let n ← (match dgetD mc "image_count" (Val.dict []) with
                       | Val.dict ic => pyRangeCount (dgetD ic "min" (Val.int 1))
                       | _ => Except.ok 1)
              let (urls, calls) ← carouselLoop O vp (dgetD mc "image" (Val.dict []))
                (dgetD uf "reference_image" Val.none) (List.range n)
              Except.ok ({ generated_media_url := some (Val.list urls),
                           status := some "media_produced", errors := some [] }, calls)
            else
              Except.ok ({ generated_media_url := some Val.none,
                           status := some "media_produced", errors := some [] }, [])
        | _ => Except.error (PyErr.keyError "visual_prompt")
  | _ => Except.error PyErr.attributeError

/-- `media_producer_node`: the body wrapped in `try/except Exception`. -/
def media_producer_node (O : Oracles) (s : AgentState) : StateUpdate × List ApiCall :=
  match media_producer_body O s with
  | Except.ok r => r
  | Except.error e => (failUpdate s ("Media Producer failed: " ++ errMsg e), [])

end COFal

/-- The LangGraph END sentinel. -/
def ENDNode : String := "__end__"

/-- The five node names added by `workflow.add_node` (lines 530-534), in
registration order. -/
def workflowNodes : List String :=
  ["planner", "prompt_engineer", "copywriter", "visual_refiner", "media_producer"]

/-- The entry point set by `workflow.set_entry_point` (line 537). -/
def workflowEntry : String := "planner"

/-- The edges added by `workflow.add_edge` (lines 540-544). -/
def workflowEdges : List (String × String) :=
  [("planner", "prompt_engineer"), ("prompt_engineer", "copywriter"),
   ("copywriter", "visual_refiner"), ("visual_refiner", "media_producer"),
   ("media_producer", ENDNode)]

/-- The node implementations, by registered name. -/
def nodeImpl (rules : Dict) (O : Oracles) :
    String → AgentState → StateUpdate × List ApiCall
  | "planner", s => COFal.planner_node rules s
  | "prompt_engineer", s => COFal.prompt_engineer_node s
  | "copywriter", s => COFal.copywriter_node O s
  | "visual_refiner", s => COFal.visual_refiner_node O s
  | "media_producer", s => COFal.media_producer_node O s
  | _, _ => ({}, [])

/-- The unique successor of a node along the graph's edges. -/
def nextNode (edges : List (String × String)) (n : String) : Option String :=
  match edges.find? (fun e => e.1 == n) with
  | some e => some e.2
  | Option.none => Option.none

/-- Sequential execution of a LangGraph `StateGraph` whose every node has one
outgoing edge (the semantics of a compiled linear graph): starting from a
node, repeatedly run the current node, merge its partial update, and follow
the unique edge, until END.  Returns the final state, the concatenated API
call log, and the list of executed nodes in order.  The fuel argument
dominates the (finite) path length. -/
def execFrom (impl : String → AgentState → StateUpdate × List ApiCall)
    (edges : List (String × String)) :
    Nat → String → AgentState → AgentState × List ApiCall × List String
  | 0, _, s => (s, [], [])
  | fuel + 1, cur, s =>
      if cur = ENDNode then (s, [], [])
      else
        match nextNode edges cur with
        | Option.none => (s, [], [])
        | some nxt =>
            let r := impl cur s
            let rest := execFrom impl edges fuel nxt (applyUpdate s r.1)
            (rest.1, r.2 ++ rest.2.1, cur :: rest.2.2)

/-- `app.invoke(...)`: run the compiled workflow from its entry point. -/
def app_invoke (rules : Dict) (O : Oracles) (s : AgentState) :
    AgentState × List ApiCall × List String :=
  execFrom (nodeImpl rules O) workflowEdges (workflowNodes.length + 1) workflowEntry s

theorem except_ok_of_bind {α β : Type} {e : Except PyErr α} {f : α → Except PyErr β}
    {b : β} (h : (e >>= f) = Except.ok b) : ∃ a, e = Except.ok a ∧ f a = Except.ok b := by
  cases e with
  | ok a => exact ⟨a, rfl, h⟩
  | error err => exact Except.noConfusion h

theorem stGet_ok {α : Type} {o : Option α} {k : String} {a : α}
    (h : stGet o k = Except.ok a) : o = some a := by
  cases o with
  | none => exact Except.noConfusion h
  | some v =>
      unfold stGet at h
      injection h with h
      rw [h]

theorem pyIndex_ok {d : Dict} {k : String} {v : Val}
    (h : pyIndex d k = Except.ok v) : dget d k = some v := by
  unfold pyIndex at h
  cases hg : dget d k with
  | none =>
      rw [hg] at h
      exact Except.noConfusion h
  | some w =>
      rw [hg] at h
      injection h with h
      rw [h]

/-- C4: the compiled workflow graph consists of exactly the five registered
nodes connected in a single linear chain from the entry point `planner`
through `prompt_engineer`, `copywriter` and `visual_refiner` to
`media_producer` and then END — each node has exactly one outgoing edge, so
there is no branching and no retry edge — and consequently every invocation
executes each node exactly once, in that order, for every rules table,
oracle assignment and input state. -/
theorem c4_workflow_linear_five_nodes (rules : Dict) (O : Oracles) (s : AgentState) :
    workflowNodes = ["planner", "prompt_engineer", "copywriter",
      "visual_refiner", "media_producer"] ∧
    workflowEntry = "planner" ∧
    workflowEdges = [("planner", "prompt_engineer"), ("prompt_engineer", "copywriter"),
      ("copywriter", "visual_refiner"), ("visual_refiner", "media_producer"),
      ("media_producer", ENDNode)] ∧
    (∀ n ∈ workflowNodes, (workflowEdges.filter (fun e => e.1 == n)).length = 1) ∧
    (app_invoke rules O s).2.2 = workflowNodes := by
  refine ⟨rfl, rfl, rfl, by decide, ?_⟩
  simp [app_invoke, execFrom, nextNode, workflowEdges, workflowNodes,
    workflowEntry, ENDNode, List.find?]

/-- The selected media type recorded in the state's generation plan, as the
`visual_refiner` and `media_producer` nodes read it. -/
def planMediaTypeOf (s : AgentState) : Option Val :=
  match s.generation_plan with
  | some plan =>
      (match dget plan "media_constraints" with
       | some (Val.dict mc) => some (dgetD mc "selected_type" Val.none)
       | _ => Option.none)
  | Option.none => Option.none

theorem planner_body_no_calls (rules : Dict) (s : AgentState) (r : StateUpdate × List ApiCall)
    (h : COFal.planner_body rules s = Except.ok r) : r.2 = [] := by
  unfold COFal.planner_body at h
  obtain ⟨a, _, h⟩ := except_ok_of_bind h
  obtain ⟨b, _, h⟩ := except_ok_of_bind h
  obtain ⟨c, _, h⟩ := except_ok_of_bind h
  obtain ⟨d, _, h⟩ := except_ok_of_bind h
  obtain ⟨p, _, h⟩ := except_ok_of_bind h
  injection h with h
  rw [← h]

theorem prompt_engineer_body_no_calls (s : AgentState) (r : StateUpdate × List ApiCall)
    (h : COFal.prompt_engineer_body s = Except.ok r) : r.2 = [] := by
  unfold COFal.prompt_engineer_body at h
  obtain ⟨a, _, h⟩ := except_ok_of_bind h
  obtain ⟨b, _, h⟩ := except_ok_of_bind h
  obtain ⟨c, _, h⟩ := except_ok_of_bind h
  obtain ⟨d, _, h⟩ := except_ok_of_bind h
  obtain ⟨t, _, h⟩ := except_ok_of_bind h
  obtain ⟨mp, _, h⟩ := except_ok_of_bind h
  injection h with h
  rw [← h]

theorem copywriter_body_one_call (O : Oracles) (s : AgentState) (r : StateUpdate × List ApiCall)
    (h : COFal.copywriter_body O s = Except.ok r) : r.2.length = 1 := by
  unfold COFal.copywriter_body at h
  split at h
  · exact Except.noConfusion h
  · obtain ⟨t, _, h⟩ := except_ok_of_bind h
    injection h with h
    rw [← h]
    rfl

theorem visual_refiner_body_calls (O : Oracles) (s : AgentState) (r : StateUpdate × List ApiCall)
    (h : COFal.visual_refiner_body O s = Except.ok r) : r.2.length ≤ 1 := by
  unfold COFal.visual_refiner_body at h
  obtain ⟨plan, _, h⟩ := except_ok_of_bind h
  obtain ⟨mcv, _, h⟩ := except_ok_of_bind h
  split at h
  · rename_i mc hmceq
    simp only [] at h
    by_cases hc1 : valTruthy (dgetD mc "selected_type" Val.none) = false ∨
        dgetD mc "selected_type" Val.none = Val.str "text_only"
    · rw [if_pos hc1] at h
      have h' := Except.ok.inj h
      rw [← h']
      simp
    · rw [if_neg hc1] at h
      by_cases hc2 : optStrTruthy s.generated_text = false
      · rw [if_pos hc2] at h
        exact Except.noConfusion h
      · rw [if_neg hc2] at h
        obtain ⟨gt, _, h⟩ := except_ok_of_bind h
        have h' := Except.ok.inj h
        rw [← h']
        simp
  · exact Except.noConfusion h

theorem media_producer_body_calls (O : Oracles) (s : AgentState)
    (r : StateUpdate × List ApiCall)
    (hnp : planMediaTypeOf s ≠ some (Val.str "photo_carousel"))
    (h : COFal.media_producer_body O s = Except.ok r) : r.2.length ≤ 1 := by
  unfold COFal.media_producer_body at h
  obtain ⟨plan, hplan, h⟩ := except_ok_of_bind h
  obtain ⟨mcv, hmcv, h⟩ := except_ok_of_bind h
  split at h
  · rename_i mc
    have hpmt : planMediaTypeOf s = some (dgetD mc "selected_type" Val.none) := by
      have hgp := stGet_ok hplan
      have hmc := pyIndex_ok hmcv
      simp [planMediaTypeOf, hgp, hmc]
    simp only [] at h
    by_cases hc1 : valTruthy (dgetD mc "selected_type" Val.none) = false ∨
        dgetD mc "selected_type" Val.none = Val.str "text_only"
    · rw [if_pos hc1] at h
      have h' := Except.ok.inj h
      rw [← h']
      simp
    · rw [if_neg hc1] at h
      by_cases hc2 : optOptStrTruthy s.visual_prompt = false
      · rw [if_pos hc2] at h
        exact Except.noConfusion h
      · rw [if_neg hc2] at h
        split at h
        · rename_i vp
          obtain ⟨uf, hufg, h⟩ := except_ok_of_bind h
          by_cases him : dgetD mc "selected_type" Val.none = Val.str "image"
          · rw [if_pos him] at h
            obtain ⟨uc, _, h⟩ := except_ok_of_bind h
            obtain ⟨url, call⟩ := uc
            have h' := Except.ok.inj h
            rw [← h']
            simp
          · rw [if_neg him] at h
            by_cases hvid : dgetD mc "selected_type" Val.none = Val.str "video"
            · rw [if_pos hvid] at h
              obtain ⟨uc, _, h⟩ := except_ok_of_bind h
              obtain ⟨url, call⟩ := uc
              have h' := Except.ok.inj h
              rw [← h']
              simp
            · rw [if_neg hvid] at h
              by_cases hcar : dgetD mc "selected_type" Val.none = Val.str "photo_carousel"
              · exfalso
                apply hnp
                rw [hpmt, hcar]
              · rw [if_neg hcar] at h
                have h' := Except.ok.inj h
                rw [← h']
                simp
        · exact Except.noConfusion h
  · exact Except.noConfusion h

/-- C5 (amended): not every node performs one API call.  The planner and the
prompt engineer perform none for any input state (they only reshape
configuration and build prompt strings); the copywriter and the visual
refiner perform at most one Gemini call each (exactly one on their success
paths, none when they skip or fail); and the media producer performs at most
one fal.ai call except for a photo carousel, where it performs one call per
required slide.  Output still flows to the next node only through the
returned state update. -/
theorem c5_node_api_call_counts (rules : Dict) (O : Oracles) (s : AgentState) :
    (COFal.planner_node rules s).2 = [] ∧
    (COFal.prompt_engineer_node s).2 = [] ∧
    (COFal.copywriter_node O s).2.length ≤ 1 ∧
    (COFal.visual_refiner_node O s).2.length ≤ 1 ∧
    (planMediaTypeOf s ≠ some (Val.str "photo_carousel") →
      (COFal.media_producer_node O s).2.length ≤ 1) := by
  refine ⟨?_, ?_, ?_, ?_, ?_⟩
  · unfold COFal.planner_node
    cases hb : COFal.planner_body rules s with
    | ok r => exact planner_body_no_calls rules s r hb
    | error e => rfl
  · unfold COFal.prompt_engineer_node
    cases hb : COFal.prompt_engineer_body s with
    | ok r => exact prompt_engineer_body_no_calls s r hb
    | error e => rfl
  · unfold COFal.copywriter_node
    cases hb : COFal.copywriter_body O s with
    | ok r => exact le_of_eq (copywriter_body_one_call O s r hb)
    | error e => simp
  · unfold COFal.visual_refiner_node
    cases hb : COFal.visual_refiner_body O s with
    | ok r => exact visual_refiner_body_calls O s r hb
    | error e => simp
  · intro hnp
    unfold COFal.media_producer_node
    cases hb : COFal.media_producer_body O s with
    | ok r => exact media_producer_body_calls O s r hnp hb
    | error e => simp

/-- Witness for `c5_node_api_call_counts` at the empty state and empty rules
table. -/
theorem c5_node_api_call_counts_witness :
    (COFal.planner_node [] {}).2 = [] ∧
    (COFal.prompt_engineer_node {}).2 = [] ∧
    (COFal.copywriter_node oraclesEx {}).2.length ≤ 1 ∧
    (COFal.visual_refiner_node oraclesEx {}).2.length ≤ 1 ∧
    (COFal.media_producer_node oraclesEx {}).2.length ≤ 1 := by
  have h := c5_node_api_call_counts [] oraclesEx {}
  exact ⟨h.1, h.2.1, h.2.2.1, h.2.2.2.1, h.2.2.2.2 (by decide)⟩

/-- The initial state `main.py` passes to `app.invoke` (with empty user
payload dictionaries), for an empty rules table. -/
def exInitState : AgentState :=
  { platform := some "X", intent := some "PAID_AD", user_inputs := some [],
    uploaded_files := some [], user_media_choice := some (some "image"),
    errors := some [] }

/-- C5 counterexample: a complete invocation of the five-node workflow in
which no node performs any external API call at all (the planner fails on an
unknown platform and every later node fails or skips), refuting "each node
performs one API call". -/
theorem c5_counterexample_zero_call_run :
    (app_invoke [] oraclesEx exInitState).2.1 = [] ∧
    (app_invoke [] oraclesEx exInitState).2.2 = workflowNodes := by
  refine ⟨by decide, by decide⟩

/-- C6: every exception raised in a node body is caught by that node: the
node returns a state update with status "failed" and the fixed failure
message appended as the single new error, no API calls are reported, and —
since the update sets only the errors and status channels — applying it
to the incoming state leaves every other channel unchanged. -/
theorem c6_nodes_catch_and_log (rules : Dict) (O : Oracles) (s : AgentState) :
    (∀ e, COFal.planner_body rules s = Except.error e →
      COFal.planner_node rules s =
        (failUpdate s ("Planner failed: " ++ errMsg e), [])) ∧
    (∀ e, COFal.prompt_engineer_body s = Except.error e →
      COFal.prompt_engineer_node s =
        (failUpdate s ("Prompt Engineer failed: " ++ errMsg e), [])) ∧
    (∀ e, COFal.copywriter_body O s = Except.error e →
      COFal.copywriter_node O s =
        (failUpdate s ("Copywriter failed: " ++ errMsg e), [])) ∧
    (∀ e, COFal.visual_refiner_body O s = Except.error e →
      COFal.visual_refiner_node O s =
        (failUpdate s ("Visual Refiner failed: " ++ errMsg e), [])) ∧
    (∀ e, COFal.media_producer_body O s = Except.error e →
      COFal.media_producer_node O s =
        (failUpdate s ("Media Producer failed: " ++ errMsg e), [])) ∧
    (∀ msg, applyUpdate s (failUpdate s msg) =
      { s with errors := some (s.errors.getD [] ++ [msg]),
               status := some "failed" }) := by
  refine ⟨?_, ?_, ?_, ?_, ?_, ?_⟩
  · intro e h
    unfold COFal.planner_node
    rw [h]
  · intro e h
    unfold COFal.prompt_engineer_node
    rw [h]
  · intro e h
    unfold COFal.copywriter_node
    rw [h]
  · intro e h
    unfold COFal.visual_refiner_node
    rw [h]
  · intro e h
    unfold COFal.media_producer_node
    rw [h]
  · intro msg
    rfl

/-- Witness for `c6_nodes_catch_and_log`: on the empty state every node body
raises (a missing channel or a missing text input), and each node catches it
and logs the corresponding message. -/
theorem c6_nodes_catch_and_log_witness :
    COFal.planner_node [] {} =
      (failUpdate {} ("Planner failed: " ++ errMsg (PyErr.keyError "platform")), []) ∧
    COFal.prompt_engineer_node {} =
      (failUpdate {} ("Prompt Engineer failed: "
        ++ errMsg (PyErr.keyError "generation_plan")), []) ∧
    COFal.copywriter_node oraclesEx {} =
      (failUpdate {} ("Copywriter failed: "
        ++ errMsg (PyErr.valueError "Text model input missing.")), []) ∧
    COFal.visual_refiner_node oraclesEx {} =
      (failUpdate {} ("Visual Refiner failed: "
        ++ errMsg (PyErr.keyError "generation_plan")), []) ∧
    COFal.media_producer_node oraclesEx {} =
      (failUpdate {} ("Media Producer failed: "
        ++ errMsg (PyErr.keyError "generation_plan")), []) ∧
    applyUpdate {} (failUpdate {} "m") =
      { ({} : AgentState) with
          errors := some ((({} : AgentState).errors).getD [] ++ ["m"]),
          status := some "failed" } := by
  have h := c6_nodes_catch_and_log [] oraclesEx {}
  exact ⟨h.1 (PyErr.keyError "platform") (by decide),
         h.2.1 (PyErr.keyError "generation_plan") (by decide),
         h.2.2.1 (PyErr.valueError "Text model input missing.") (by decide),
         h.2.2.2.1 (PyErr.keyError "generation_plan") (by decide),
         h.2.2.2.2.1 (PyErr.keyError "generation_plan") (by decide),
         h.2.2.2.2.2 "m"⟩
